import Mathlib

/-!
# Wire codec of the X11 proof-of-concept client (`src/poc/x11-poc.c`)

A shallow embedding of the handshake, the resource-ID allocator, the request
encoders and the reply, error and event decoder of the C program, followed by the
properties established about them.

Conventions of the embedding.

* A byte is a natural number below 256; a `char` array is a list of bytes and
  `char Buf[16*1024] = {}` is `List.replicate 16384 0`.
* The `int32_t` globals that hold protocol words (`GlobalId`, `GlobalIdBase`,
  `GlobalIdMask`, `GlobalRootWindow`, `GlobalRootVisualId`) are represented by
  their 32-bit two's-complement bit pattern, a natural number below `2^32`;
  `toInt32` gives the signed reading.  Signed overflow of `GlobalId += 1` is
  modelled as wrap-around modulo `2^32`.
* `int` parameters are mathematical integers; storing one into a narrower
  object keeps the low bits (`wrap8`, `wrap16`, `wrap32`).
* Multi-byte loads and stores are little-endian, as on the hosts the program
  targets (it announces byte order `'l'` in the handshake).
* An access outside an array is undefined behaviour in C; the embedding makes
  it the explicit outcome `Fault.outOfBounds`.
* The socket is a pair of byte queues.  `read` delivers as many of the pending
  bytes as the caller asks for; `write` always completes, so the `VerifyOrDie`
  after the handshake request passes.
* Of the text the program prints, only the report of `DumpResponseError` is
  modelled (as the value `ErrorDump`); a `%s` conversion prints the bytes up to
  the first NUL.  The decoders return the values of the variables they decode,
  each with the reading its C type gives it; `printf` formatting is not modelled.
* A C string argument is the list of bytes its memory holds before the
  terminating NUL; `strlen` and `strncpy` stop at the first NUL of that list.
* `char` is signed, as on the hosts the program targets, and `size_t` has 64 bits.
-/

namespace X11Poc

/-! ## Constants and macros -/

def READ_BUFFER_SIZE : Nat := 16*1024

def RESPONSE_STATE_FAILED : Nat := 0
def RESPONSE_STATE_SUCCESS : Nat := 1
def RESPONSE_STATE_AUTHENTICATE : Nat := 2

def X11_REQUEST_CREATE_WINDOW : Nat := 1
def X11_REQUEST_MAP_WINDOW : Nat := 8
def X11_REQUEST_IMAGE_TEXT_8 : Nat := 76
def X11_REQUEST_OPEN_FONT : Nat := 45
def X11_REQUEST_CREATE_GC : Nat := 55

def X11_EVENT_FLAG_KEY_PRESS : Nat := 0x00000001
def X11_EVENT_FLAG_KEY_RELEASE : Nat := 0x00000002
def X11_EVENT_FLAG_EXPOSURE : Nat := 0x8000

def WINDOWCLASS_COPYFROMPARENT : Nat := 0
def WINDOWCLASS_INPUTOUTPUT : Nat := 1
def WINDOWCLASS_INPUTONLY : Nat := 2

def X11_FLAG_BACKGROUND_PIXEL : Nat := 0x00000002
def X11_FLAG_WIN_EVENT : Nat := 0x00000800

def X11_FLAG_FG : Nat := 0x00000004
def X11_FLAG_BG : Nat := 0x00000008
def X11_FLAG_FONT : Nat := 0x00004000
def X11_FLAG_GC_EXPOSURE : Nat := 0x00010000

def REPLY_EVENT_CODE_KEY_PRESS : Int := 2
def REPLY_EVENT_CODE_EXPOSE : Int := 12

/-- The macro `PAD(N) ((4 - (N % 4)) % 4)` on `int` operands; `%` in C
truncates towards zero, which is `Int.tmod`. -/
def PAD (N : Int) : Int := (4 - N.tmod 4).tmod 4

/-! ## Machine integers -/

/-- Low 8 bits of an integer: the byte stored by an assignment to a `char`. -/
def wrap8 (z : Int) : Nat := (z % 256).toNat

/-- Low 16 bits of an integer: the pattern stored into an `int16_t`/`uint16_t`. -/
def wrap16 (z : Int) : Nat := (z % 65536).toNat

/-- Low 32 bits of an integer: the pattern stored into an `int32_t`/`uint32_t`. -/
def wrap32 (z : Int) : Nat := (z % 4294967296).toNat

/-- Signed reading of a byte: the value of a `char` (signed on the targeted hosts)
or `int8_t` holding it. -/
def toInt8 (n : Nat) : Int := if n < 128 then (n : Int) else (n : Int) - 256

/-- Signed reading of a 16-bit pattern. -/
def toInt16 (n : Nat) : Int := if n < 32768 then (n : Int) else (n : Int) - 65536

/-- Signed reading of a 32-bit pattern. -/
def toInt32 (n : Nat) : Int := if n < 2147483648 then (n : Int) else (n : Int) - 4294967296

/-- Bitwise complement of a 32-bit pattern (`~x` on a 32-bit operand). -/
def not32 (n : Nat) : Nat := n ^^^ 0xFFFFFFFF

/-- The comparison `c < n` of an `int` with a `size_t`: the usual arithmetic
conversions turn `c` into a 64-bit unsigned value first. -/
def ltSizeT (c : Int) (n : Nat) : Bool := decide ((c % 18446744073709551616).toNat < n)

/-- The statement `a += b` on `int32_t` objects, wrapping on overflow. -/
def addInt32 (a b : Int) : Int := toInt32 (wrap32 (a + b))

/-- The statement `a -= b` on `int32_t` objects, wrapping on overflow. -/
def subInt32 (a b : Int) : Int := toInt32 (wrap32 (a - b))

/-! ## Arrays of bytes -/

/-- Undefined behaviour made explicit. -/
inductive Fault where
  | outOfBounds
  deriving DecidableEq, Repr

deriving instance DecidableEq for Except

/-- The expression `Buf[i]` read as an unsigned byte. -/
def loadByte (Buf : List Nat) (i : Int) : Except Fault Nat :=
  if i < 0 then .error .outOfBounds
  else match Buf[i.toNat]? with
    | some b => .ok b
    | none => .error .outOfBounds

/-- The expression `*((uint16_t*)&Buf[i])`. -/
def load16 (Buf : List Nat) (i : Int) : Except Fault Nat := do
  let b0 ← loadByte Buf i
  let b1 ← loadByte Buf (i + 1)
  pure (b0 + 256 * b1)

/-- The expression `*((uint32_t*)&Buf[i])`. -/
def load32 (Buf : List Nat) (i : Int) : Except Fault Nat := do
  let b0 ← loadByte Buf i
  let b1 ← loadByte Buf (i + 1)
  let b2 ← loadByte Buf (i + 2)
  let b3 ← loadByte Buf (i + 3)
  pure (b0 + 256 * b1 + 65536 * b2 + 16777216 * b3)

/-- The assignment `Buf[i] = v` at a fixed offset inside the array. -/
def store8 (Buf : List Nat) (i : Nat) (v : Nat) : List Nat :=
  Buf.set i (v % 256)

/-- The assignment `*((int16_t *)&Buf[i]) = v` at a fixed offset inside the array. -/
def store16 (Buf : List Nat) (i : Nat) (v : Nat) : List Nat :=
  (Buf.set i (v % 256)).set (i + 1) (v / 256 % 256)

/-- The assignment `*((int32_t *)&Buf[i]) = v` at a fixed offset inside the array. -/
def store32 (Buf : List Nat) (i : Nat) (v : Nat) : List Nat :=
  (((Buf.set i (v % 256)).set (i + 1) (v / 256 % 256)).set (i + 2) (v / 65536 % 256)).set
    (i + 3) (v / 16777216 % 256)

/-- The bytes a `%s` conversion prints: everything before the first NUL.  Running
off the end of the array without meeting one is an out-of-bounds read. -/
def cString : List Nat → Except Fault (List Nat)
  | [] => .error .outOfBounds
  | b :: rest => if b = 0 then .ok [] else (cString rest).map (fun s => b :: s)

/-- The first `count` bytes of an array, as `write(fd, Buf, count)` reads them. -/
def firstBytes (Buf : List Nat) (count : Int) : Except Fault (List Nat) :=
  if 0 ≤ count ∧ count ≤ (Buf.length : Int) then .ok (Buf.take count.toNat)
  else .error .outOfBounds

/-- The call `strlen(Src)` for a string whose memory holds the bytes `Src` followed
by a NUL: the number of bytes before the first NUL. -/
def strlen (Src : List Nat) : Nat := (Src.takeWhile (fun b => b != 0)).length

/-- The call `strncpy(&Buf[off], Src, n)` for a string whose memory holds the bytes
`Src` followed by a NUL: the characters before the first NUL are copied, at most
`n` of them, and the rest of the `n` bytes is filled with NUL.  A negative `n`
converts to a huge `size_t`. -/
def strncpy (Buf : List Nat) (off : Nat) (Src : List Nat) (n : Int) : Except Fault (List Nat) :=
  if 0 ≤ n ∧ (off : Int) + n ≤ (Buf.length : Int) then
    .ok (Buf.take off
          ++ ((Src.takeWhile (fun b => b != 0)).take n.toNat
              ++ List.replicate (n.toNat - strlen Src) 0)
          ++ Buf.drop (off + n.toNat))
  else .error .outOfBounds

/-- The expression `Names[i]` on a table of strings. -/
def tableEntry (Names : List String) (i : Int) : Except Fault String :=
  if i < 0 then .error .outOfBounds
  else match Names[i.toNat]? with
    | some name => .ok name
    | none => .error .outOfBounds

/-! ## The socket -/

/-- Stream socket: bytes the server has sent and bytes the client has written. -/
structure Sock where
  incoming : List Nat
  outgoing : List Nat
  deriving DecidableEq, Repr

/-- The call `write(Socket, bytes, n)` with the `n` bytes already selected. -/
def Sock.write (s : Sock) (bytes : List Nat) : Sock :=
  { s with outgoing := s.outgoing ++ bytes }

/-- The call `read(Socket, Buf + off, count)`: updated array, byte count, socket. -/
def Sock.read (s : Sock) (Buf : List Nat) (off count : Nat) : List Nat × Int × Sock :=
  let chunk := s.incoming.take count
  (Buf.take off ++ chunk ++ Buf.drop (off + chunk.length), (chunk.length : Int),
    { s with incoming := s.incoming.drop count })

/-! ## Global state -/

/-- The global variables of the program. -/
structure Globals where
  GlobalId : Nat
  GlobalIdBase : Nat
  GlobalIdMask : Nat
  GlobalRootWindow : Nat
  GlobalRootVisualId : Nat
  GlobalTextOffsetX : Int
  GlobalTextOffsetY : Int
  deriving DecidableEq, Repr

/-- The initial values of the globals. -/
def Globals.initial : Globals :=
  { GlobalId := 0, GlobalIdBase := 0, GlobalIdMask := 0, GlobalRootWindow := 0,
    GlobalRootVisualId := 0, GlobalTextOffsetX := 10, GlobalTextOffsetY := 20 }

/-- Every protocol word held in the globals is a 32-bit pattern. -/
def Globals.WF (g : Globals) : Prop :=
  g.GlobalId < 2^32 ∧ g.GlobalIdBase < 2^32 ∧ g.GlobalIdMask < 2^32 ∧
    g.GlobalRootWindow < 2^32 ∧ g.GlobalRootVisualId < 2^32

instance (g : Globals) : Decidable g.WF := by
  unfold Globals.WF; infer_instance

/-! ## `GetNextId` -/

/-- The function `GetNextId`: the returned ID and the globals afterwards. -/
def GetNextId (g : Globals) : Nat × Globals :=
  let Result := (g.GlobalIdMask &&& g.GlobalId) ||| g.GlobalIdBase
  (Result, { g with GlobalId := (g.GlobalId + 1) % 2^32 })

/-- The globals after `k` successive calls of `GetNextId`. -/
def afterCalls : Nat → Globals → Globals
  | 0, g => g
  | k + 1, g => (GetNextId (afterCalls k g)).2

/-! ## The handshake -/

/-- What `DumpResponseError` prints. -/
structure ErrorDump where
  State : Nat
  MajorVersion : Nat
  MinorVersion : Nat
  AdditionalDataLength : Nat
  Reason : List Nat
  deriving DecidableEq, Repr

/-- The function `DumpResponseError`. -/
def DumpResponseError (Socket : Sock) (ReadBuffer : List Nat) : Except Fault ErrorDump × Sock :=
  let r := Socket.read ReadBuffer 8 (READ_BUFFER_SIZE - 8)
  (do
    let _ReasonLength ← loadByte ReadBuffer 1
    let MajorVersion ← load16 ReadBuffer 2
    let MinorVersion ← load16 ReadBuffer 4
    let AdditionalDataLength ← load16 ReadBuffer 6
    let State ← loadByte r.1 0
    let Message ← cString (r.1.drop 8)
    pure { State := State, MajorVersion := MajorVersion, MinorVersion := MinorVersion,
           AdditionalDataLength := AdditionalDataLength, Reason := Message },
   r.2.2)

/-- The 12 bytes of `InitializationRequest` as `X_InitiateConnection` fills them. -/
def InitializationRequest : List Nat :=
  store8 (store8 (store8 (List.replicate 12 0) 0 108) 1 0) 2 11

/-- Observable result of `X_InitiateConnection`. -/
structure InitOutcome where
  SetupStatus : Int
  globals : Globals
  dump : Option ErrorDump
  deriving DecidableEq, Repr

/-- The function `X_InitiateConnection`. -/
def X_InitiateConnection (g : Globals) (Socket : Sock) : Except Fault InitOutcome × Sock :=
  let SetupStatus : Int := 1
  let ReadBuffer := List.replicate READ_BUFFER_SIZE 0
  let Socket := Socket.write InitializationRequest
  let r := Socket.read ReadBuffer 0 8
  let ReadBuffer := r.1
  let Socket := r.2.2
  match loadByte ReadBuffer 0 with
  | .error f => (.error f, Socket)
  | .ok b0 =>
    if b0 = RESPONSE_STATE_FAILED then
      let d := DumpResponseError Socket ReadBuffer
      (d.1.map (fun e => { SetupStatus := SetupStatus, globals := g, dump := some e }), d.2)
    else if b0 = RESPONSE_STATE_AUTHENTICATE then
      (.ok { SetupStatus := SetupStatus, globals := g, dump := none }, Socket)
    else if b0 = RESPONSE_STATE_SUCCESS then
      let r := Socket.read ReadBuffer 8 (READ_BUFFER_SIZE - 8)
      let ReadBuffer := r.1
      let Socket := r.2.2
      (do
        let _Unused ← loadByte ReadBuffer 1
        let _MajorVersion ← load16 ReadBuffer 2
        let _MinorVersion ← load16 ReadBuffer 4
        let _AdditionalDataLength ← load16 ReadBuffer 6
        let ResourceIdBase ← load32 ReadBuffer 12
        let ResourceIdMask ← load32 ReadBuffer 16
        let LengthOfVendor ← load16 ReadBuffer 24
        let Formats16 ← load16 ReadBuffer 29
        let NumberOfFormants : Nat := Formats16 % 256
        let VendorPad : Int := PAD LengthOfVendor
        let FormatByteLength : Int := 8 * NumberOfFormants
        let ScreensStartOffset : Int := 40 + LengthOfVendor + VendorPad + FormatByteLength
        let RootWindow ← load32 ReadBuffer ScreensStartOffset
        let RootVisualId ← load32 ReadBuffer (ScreensStartOffset + 32)
        pure { SetupStatus := 0,
               globals := { g with GlobalIdBase := ResourceIdBase, GlobalIdMask := ResourceIdMask,
                                   GlobalRootWindow := RootWindow,
                                   GlobalRootVisualId := RootVisualId },
               dump := none },
       Socket)
    else
      (.ok { SetupStatus := SetupStatus, globals := g, dump := none }, Socket)

/-! ## Request encoders -/

/-- The function `X_CreatWindow`: returned window ID, globals and socket afterwards. -/
def X_CreatWindow (g : Globals) (Socket : Sock) (X Y Width Height : Int) : Nat × Globals × Sock :=
  let SendBuffer := List.replicate (16*1024) 0
  let r := GetNextId g
  let WindowId := r.1
  let g := r.2
  let Depth : Int := 0
  let BorderWidth : Int := 1
  let CreateWindowFlagCount : Int := 2
  let RequestLength : Int := 8 + CreateWindowFlagCount
  let SendBuffer := store8 SendBuffer 0 X11_REQUEST_CREATE_WINDOW
  let SendBuffer := store8 SendBuffer 1 (wrap8 Depth)
  let SendBuffer := store16 SendBuffer 2 (wrap16 RequestLength)
  let SendBuffer := store32 SendBuffer 4 WindowId
  let SendBuffer := store32 SendBuffer 8 g.GlobalRootWindow
  let SendBuffer := store16 SendBuffer 12 (wrap16 X)
  let SendBuffer := store16 SendBuffer 14 (wrap16 Y)
  let SendBuffer := store16 SendBuffer 16 (wrap16 Width)
  let SendBuffer := store16 SendBuffer 18 (wrap16 Height)
  let SendBuffer := store16 SendBuffer 20 (wrap16 BorderWidth)
  let SendBuffer := store16 SendBuffer 22 WINDOWCLASS_INPUTOUTPUT
  let SendBuffer := store32 SendBuffer 24 g.GlobalRootVisualId
  let SendBuffer := store32 SendBuffer 28 (X11_FLAG_WIN_EVENT ||| X11_FLAG_BACKGROUND_PIXEL)
  let SendBuffer := store32 SendBuffer 32 0xff000000
  let SendBuffer := store32 SendBuffer 36 (X11_EVENT_FLAG_EXPOSURE ||| X11_EVENT_FLAG_KEY_PRESS)
  let Socket := Socket.write (SendBuffer.take (RequestLength * 4).toNat)
  (WindowId, g, Socket)

/-- The function `WriteText`.  `Text` holds the bytes of the string passed in (its
memory continues with a NUL), `TextLength` the length argument. -/
def WriteText (Socket : Sock) (WindowId GCid : Int) (X Y : Int) (Text : List Nat)
    (TextLength : Int) : Except Fault Sock := do
  let Buffer := List.replicate (16*1024) 0
  let ContentLength : Nat := wrap32 (4 + (TextLength + PAD TextLength).tdiv 4)
  let Buffer := store8 Buffer 0 X11_REQUEST_IMAGE_TEXT_8
  let Buffer := store8 Buffer 1 (wrap8 TextLength)
  let Buffer := store16 Buffer 2 ContentLength
  let Buffer := store32 Buffer 4 (wrap32 WindowId)
  let Buffer := store32 Buffer 8 (wrap32 GCid)
  let Buffer := store16 Buffer 12 (wrap16 X)
  let Buffer := store16 Buffer 14 (wrap16 Y)
  let Buffer ← strncpy Buffer 16 Text TextLength
  let bytes ← firstBytes Buffer (ContentLength * 4 % 4294967296 : Nat)
  pure (Socket.write bytes)

/-- The function `X_MapWindow`: return value and socket afterwards. -/
def X_MapWindow (Socket : Sock) (WindowId : Int) : Int × Sock :=
  let SendBuffer := List.replicate (16*1024) 0
  let SendBuffer := store8 SendBuffer 0 X11_REQUEST_MAP_WINDOW
  let SendBuffer := store8 SendBuffer 1 0
  let SendBuffer := store16 SendBuffer 2 2
  let SendBuffer := store32 SendBuffer 4 (wrap32 WindowId)
  let Socket := Socket.write (SendBuffer.take (2*4))
  (0, Socket)

/-- The function `X_OpenFont`.  `FontName` holds the bytes of the string passed in
(its memory continues with a NUL). -/
def X_OpenFont (Socket : Sock) (FontName : List Nat) (FontId : Int) : Except Fault Sock := do
  let SendBuffer := List.replicate (16*1024) 0
  let FontNameLength : Int := toInt32 (wrap32 (strlen FontName))
  let Pad : Int := PAD FontNameLength
  let RequestLength : Int := 3 + (FontNameLength + Pad).tdiv 4
  let SendBuffer := store8 SendBuffer 0 X11_REQUEST_OPEN_FONT
  let SendBuffer := store8 SendBuffer 1 0
  let SendBuffer := store16 SendBuffer 2 (wrap16 RequestLength)
  let SendBuffer := store32 SendBuffer 4 (wrap32 FontId)
  let SendBuffer := store16 SendBuffer 8 (wrap16 FontNameLength)
  let SendBuffer ← strncpy SendBuffer 12 FontName FontNameLength
  let WriteSize : Int := 12 + FontNameLength + Pad
  let bytes ← firstBytes SendBuffer WriteSize
  pure (Socket.write bytes)

/-- The function `X_CreateGC`: the socket afterwards. -/
def X_CreateGC (g : Globals) (Socket : Sock) (GcId FontId : Int) : Sock :=
  let SendBuffer := List.replicate (16*1024) 0
  let CreateGcFlagCount : Int := 3
  let RequestLength : Int := 4 + CreateGcFlagCount
  let SendBuffer := store8 SendBuffer 0 X11_REQUEST_CREATE_GC
  let SendBuffer := store8 SendBuffer 1 0
  let SendBuffer := store16 SendBuffer 2 (wrap16 RequestLength)
  let SendBuffer := store32 SendBuffer 4 (wrap32 GcId)
  let SendBuffer := store32 SendBuffer 8 g.GlobalRootWindow
  let SendBuffer := store32 SendBuffer 12 (X11_FLAG_FG ||| X11_FLAG_BG ||| X11_FLAG_FONT)
  let SendBuffer := store32 SendBuffer 16 0xFF00FF00
  let SendBuffer := store32 SendBuffer 20 0xFF000000
  let SendBuffer := store32 SendBuffer 24 (wrap32 FontId)
  Socket.write (SendBuffer.take (RequestLength * 4).toNat)

/-! ## Replies, errors and events -/

/-- The table `ErrorNames` of `PrintResponseError`. -/
def ErrorNames : List String :=
  ["Unknown Error", "Request", "Value", "Window", "Pixmap", "Atom", "Cursor", "Font",
   "Match", "Drawable", "Access", "Alloc", "Colormap", "GContext", "IDChoice", "Name",
   "Length", "Implementation"]

/-- What `PrintResponseError` prints: the code with `%d`, the chosen name, and the
minor and major opcodes. -/
structure ErrorReport where
  ErrorCode : Int
  ErrorName : String
  Minor : Nat
  Major : Nat
  deriving DecidableEq, Repr

/-- The function `PrintResponseError`. -/
def PrintResponseError (Data : List Nat) : Except Fault ErrorReport := do
  let ErrorCode : Int := toInt8 (← loadByte Data 1)
  let ErrorName ←
    if ltSizeT ErrorCode ErrorNames.length then tableEntry ErrorNames ErrorCode
    else pure "Unknown error"
  let Minor ← load16 Data 8
  let Major ← loadByte Data 10
  pure { ErrorCode := ErrorCode, ErrorName := ErrorName, Minor := Minor, Major := Major }

/-- The table `EventNames` of `PrintAndProcessEvent`. -/
def EventNames : List String :=
  ["-- Wrong Event Code --", "-- Wrong Event Code --", "KeyPress", "KeyRelease",
   "ButtonPress", "ButtonRelease", "MotionNotify", "EnterNotify", "LeaveNotify", "FocusIn",
   "FocusOut", "KeymapNotify", "Expose", "GraphicsExposure", "NoExposure",
   "VisibilityNotify", "CreateNotify", "DestroyNotify", "UnmapNotify", "MapNotify",
   "MapRequest", "ReparentNotify", "ConfigureNotify", "ConfigureRequest", "GravityNotify",
   "ResizeRequest", "CirculateNotify", "CirculateRequest", "PropertyNotify",
   "SelectionClear", "SelectionRequest", "SelectionNotify", "ColormapNotify",
   "ClientMessage", "MappingNotify"]

/-- The variables decoded in the Expose branch of `PrintAndProcessEvent`; all are
unsigned (`uint16_t`, `uint32_t`). -/
structure ExposeEvent where
  SequenceNumber : Nat
  Window : Nat
  X : Nat
  Y : Nat
  Width : Nat
  Height : Nat
  Count : Nat
  deriving DecidableEq, Repr

/-- The variables decoded in the KeyPress branch of `PrintAndProcessEvent`, each
with the value its C type gives it: `KeyCode` is a `char`, `RootX` to
`SetOfKeyButMask` are `int16_t`, `IsSameScreen` is an `int8_t`, the others are
unsigned.  `Code` is the value `(uint8_t)KeyCode` the function prints.  The bits
a signed variable holds are recovered with `wrap8` and `wrap16`. -/
structure KeyPressEvent where
  KeyCode : Int
  Code : Nat
  SequenceNumber : Nat
  TimeStamp : Nat
  RootWindow : Nat
  EventWindow : Nat
  ChildWindow : Nat
  RootX : Int
  RootY : Int
  EventX : Int
  EventY : Int
  SetOfKeyButMask : Int
  IsSameScreen : Int
  deriving DecidableEq, Repr

/-- The branch `PrintAndProcessEvent` takes and what it decodes there. -/
inductive EventReport where
  | expose (e : ExposeEvent)
  | keyPress (e : KeyPressEvent)
  | other (EventName : String)
  deriving DecidableEq, Repr

/-- The function `PrintAndProcessEvent`: its report and the globals afterwards. -/
def PrintAndProcessEvent (g : Globals) (Data : List Nat) :
    Except Fault (EventReport × Globals) := do
  let EventCode : Int := toInt8 (← loadByte Data 0)
  if EventCode = REPLY_EVENT_CODE_EXPOSE then
    let SequenceNumber ← load16 Data 2
    let Window ← load32 Data 4
    let X ← load16 Data 8
    let Y ← load16 Data 10
    let Width ← load16 Data 12
    let Height ← load16 Data 14
    let Count ← load16 Data 16
    pure (.expose { SequenceNumber := SequenceNumber, Window := Window, X := X, Y := Y,
                    Width := Width, Height := Height, Count := Count }, g)
  else if EventCode = REPLY_EVENT_CODE_KEY_PRESS then
    let KeyCode : Int := toInt8 (← loadByte Data 1)
    let SequenceNumber ← load16 Data 2
    let TimeStamp ← load32 Data 4
    let RootWindow ← load32 Data 8
    let EventWindow ← load32 Data 12
    let ChildWindow ← load32 Data 16
    let RootX : Int := toInt16 (← load16 Data 20)
    let RootY : Int := toInt16 (← load16 Data 22)
    let EventX : Int := toInt16 (← load16 Data 24)
    let EventY : Int := toInt16 (← load16 Data 26)
    let SetOfKeyButMask : Int := toInt16 (← load16 Data 28)
    let IsSameScreen : Int := toInt8 (← loadByte Data 30)
    let StepSize : Int := 10
    let g := if KeyCode = 25 then
      { g with GlobalTextOffsetY := addInt32 g.GlobalTextOffsetY StepSize } else g
    let g := if KeyCode = 39 then
      { g with GlobalTextOffsetY := subInt32 g.GlobalTextOffsetY StepSize } else g
    let g := if KeyCode = 38 then
      { g with GlobalTextOffsetX := subInt32 g.GlobalTextOffsetX StepSize } else g
    let g := if KeyCode = 40 then
      { g with GlobalTextOffsetX := addInt32 g.GlobalTextOffsetX StepSize } else g
    pure (.keyPress { KeyCode := KeyCode, Code := wrap8 KeyCode,
                      SequenceNumber := SequenceNumber, TimeStamp := TimeStamp,
                      RootWindow := RootWindow, EventWindow := EventWindow,
                      ChildWindow := ChildWindow, RootX := RootX, RootY := RootY,
                      EventX := EventX, EventY := EventY,
                      SetOfKeyButMask := SetOfKeyButMask, IsSameScreen := IsSameScreen }, g)
  else
    let EventName ←
      if ltSizeT EventCode EventNames.length then tableEntry EventNames EventCode
      else pure " - Unknown Event Code -"
    pure (.other EventName, g)

/-- The branch `GetAndProcessReply` takes and what the callee reports. -/
inductive ReplyOutcome where
  | error (r : ErrorReport)
  | unexpectedReply
  | event (e : EventReport)
  deriving DecidableEq, Repr

/-- The function `GetAndProcessReply`: outcome and globals, and the socket
afterwards. -/
def GetAndProcessReply (g : Globals) (Socket : Sock) :
    Except Fault (ReplyOutcome × Globals) × Sock :=
  let Buffer := List.replicate 1024 0
  let r := Socket.read Buffer 0 1024
  let Buffer := r.1
  let Socket := r.2.2
  (do
    let Code ← loadByte Buffer 0
    if Code = 0 then
      let e ← PrintResponseError Buffer
      pure (.error e, g)
    else if Code = 1 then
      pure (.unexpectedReply, g)
    else
      let e ← PrintAndProcessEvent g Buffer
      pure (.event e.1, e.2),
   Socket)

/-! ## Vocabulary for stating the properties -/

/-- A received frame laid over a zero-initialised array of `size` bytes. -/
def zeroPadded (bytes : List Nat) (size : Nat) : List Nat :=
  bytes.take size ++ List.replicate (size - (bytes.take size).length) 0

/-- Byte `i` of a frame; positions the frame does not reach read as 0. -/
def byteAt (frame : List Nat) (i : Nat) : Nat := frame.getD i 0

/-- Little-endian `u16` at offset `i` of a frame. -/
def u16At (frame : List Nat) (i : Nat) : Nat := byteAt frame i + 256 * byteAt frame (i + 1)

/-- Little-endian `u32` at offset `i` of a frame. -/
def u32At (frame : List Nat) (i : Nat) : Nat :=
  byteAt frame i + 256 * byteAt frame (i + 1) + 65536 * byteAt frame (i + 2)
    + 16777216 * byteAt frame (i + 3)

/-- Specification side: the formula `pad(n) = (4 - n % 4) % 4` on naturals, to be
compared with the macro `PAD`. -/
def pad (n : Nat) : Nat := (4 - n % 4) % 4

/-- Specification side: the offset `S = 40 + v + pad(v) + 8*n` of the first screen
record, with `v` the `u16` at offset 24 and `n` the byte at offset 29. -/
def screenOffset (frame : List Nat) : Nat :=
  40 + u16At frame 24 + pad (u16At frame 24) + 8 * byteAt frame 29

/-- Closed form of the 40 bytes `X_CreatWindow` leaves at the start of `SendBuffer`
(the two are proved equal in `X_CreatWindow_eq`). -/
def createWindowBytes (WindowId Root Visual x y w h : Nat) : List Nat :=
  [1, 0, 10, 0,
   WindowId % 256, WindowId / 256 % 256, WindowId / 65536 % 256, WindowId / 16777216 % 256,
   Root % 256, Root / 256 % 256, Root / 65536 % 256, Root / 16777216 % 256,
   x % 256, x / 256 % 256, y % 256, y / 256 % 256,
   w % 256, w / 256 % 256, h % 256, h / 256 % 256,
   1, 0, 1, 0,
   Visual % 256, Visual / 256 % 256, Visual / 65536 % 256, Visual / 16777216 % 256,
   2, 8, 0, 0,
   0, 0, 0, 255,
   1, 128, 0, 0]

/-- Closed form of the 16 header bytes `WriteText` stores at the start of `Buffer`
(used by `WriteText_eq`). -/
def imageText8Header (len cl drawable gc x y : Nat) : List Nat :=
  [76, len % 256, cl % 256, cl / 256 % 256,
   drawable % 256, drawable / 256 % 256, drawable / 65536 % 256, drawable / 16777216 % 256,
   gc % 256, gc / 256 % 256, gc / 65536 % 256, gc / 16777216 % 256,
   x % 256, x / 256 % 256, y % 256, y / 256 % 256]

/-- Closed form of the 8 bytes `X_MapWindow` writes (see `X_MapWindow_eq`). -/
def mapWindowBytes (WindowId : Nat) : List Nat :=
  [8, 0, 2, 0,
   WindowId % 256, WindowId / 256 % 256, WindowId / 65536 % 256, WindowId / 16777216 % 256]

/-- Closed form of the 28 bytes `X_CreateGC` writes (see `X_CreateGC_eq`). -/
def createGCBytes (GcId Root FontId : Nat) : List Nat :=
  [55, 0, 7, 0,
   GcId % 256, GcId / 256 % 256, GcId / 65536 % 256, GcId / 16777216 % 256,
   Root % 256, Root / 256 % 256, Root / 65536 % 256, Root / 16777216 % 256,
   12, 64, 0, 0,
   0, 255, 0, 255,
   0, 0, 0, 255,
   FontId % 256, FontId / 256 % 256, FontId / 65536 % 256, FontId / 16777216 % 256]

/-- Closed form of the 12 header bytes `X_OpenFont` stores at the start of
`SendBuffer` (used by `X_OpenFont_eq`). -/
def openFontHeader (rl FontId len : Nat) : List Nat :=
  [45, 0, rl % 256, rl / 256 % 256,
   FontId % 256, FontId / 256 % 256, FontId / 65536 % 256, FontId / 16777216 % 256,
   len % 256, len / 256 % 256, 0, 0]

/-- Closed form of the globals after the four key tests of the KeyPress branch of
`PrintAndProcessEvent` (see `PrintAndProcessEvent_keyPress`). -/
def afterKey (g : Globals) (KeyCode : Int) : Globals :=
  let g := if KeyCode = 25 then
    { g with GlobalTextOffsetY := addInt32 g.GlobalTextOffsetY 10 } else g
  let g := if KeyCode = 39 then
    { g with GlobalTextOffsetY := subInt32 g.GlobalTextOffsetY 10 } else g
  let g := if KeyCode = 38 then
    { g with GlobalTextOffsetX := subInt32 g.GlobalTextOffsetX 10 } else g
  if KeyCode = 40 then
    { g with GlobalTextOffsetX := addInt32 g.GlobalTextOffsetX 10 } else g

/-- The bytes the socket gained between two of its states. -/
def sentBy (before after : Sock) : List Nat :=
  after.outgoing.drop before.outgoing.length

/-! ## Sample inputs -/

/-- A Success response: base `0x00400000`, mask `0x001FFFFF`, vendor length 4, no
pixmap formats, root window `0x07654321` at offset 44, root visual `0x44332211`
at offset 76. -/
def successFrame : List Nat :=
  [1, 0, 11, 0, 0, 0, 18, 0,
   0, 0, 0, 0, 0, 0, 0x40, 0,
   0xFF, 0xFF, 0x1F, 0, 0, 0, 0, 0,
   4, 0, 0xFF, 0xFF, 1, 0, 0, 0,
   0, 0, 0, 0, 0, 0, 0, 0,
   65, 66, 67, 68,
   0x21, 0x43, 0x65, 0x07,
   9, 9, 9, 9, 9, 9, 9, 9, 9, 9, 9, 9, 9, 9,
   9, 9, 9, 9, 9, 9, 9, 9, 9, 9, 9, 9, 9, 9,
   0x11, 0x22, 0x33, 0x44]

/-- The first 26 bytes of a Success response announcing a 65535-byte vendor string. -/
def oversizedVendorFrame : List Nat :=
  [1, 0, 11, 0, 0, 0, 0, 0,
   0, 0, 0, 0, 0, 0, 0x40, 0,
   0xFF, 0xFF, 0x1F, 0, 0, 0, 0, 0,
   0xFF, 0xFF]

/-- The first 26 bytes of a Success response announcing a 16344-byte vendor
string, which puts the screen record exactly at the end of the read buffer. -/
def vendorToBufferEndFrame : List Nat :=
  [1, 0, 11, 0, 0, 0, 0, 0,
   0, 0, 0, 0, 0, 0, 0x40, 0,
   0xFF, 0xFF, 0x1F, 0, 0, 0, 0, 0,
   0xD8, 0x3F]

/-- The first 30 bytes of a Success response announcing a 65532-byte vendor
string and 255 pixmap formats. -/
def manyFormatsFrame : List Nat :=
  [1, 0, 11, 0, 0, 0, 0, 0,
   0, 0, 0, 0, 0, 0, 0x40, 0,
   0xFF, 0xFF, 0x1F, 0, 0, 0, 0, 0,
   0xFC, 0xFF, 0, 0, 1, 0xFF]

/-- A Failed response whose 16376 bytes of additional data contain no NUL. -/
def unterminatedFailureFrame : List Nat :=
  [0, 255, 11, 0, 0, 0, 0xFE, 0x0F] ++ List.replicate 16376 65

/-- A Failed response with reason length 2 and the four data bytes `nope`. -/
def failureNopeFrame : List Nat :=
  [0, 2, 11, 0, 0, 0, 1, 0, 110, 111, 112, 101]

/-- A Failed response with reason length 2 and the data bytes `no` then two NULs. -/
def failureNoFrame : List Nat :=
  [0, 2, 11, 0, 0, 0, 1, 0, 110, 111, 0, 0]

/-- An Authenticate response. -/
def authenticateFrame : List Nat :=
  [2, 0, 11, 0, 0, 0, 0, 0]

/-- A Success response whose resource-ID base and mask are both 1. -/
def overlappingIdFrame : List Nat :=
  [1, 0, 11, 0, 0, 0, 0, 0,
   0, 0, 0, 0, 1, 0, 0, 0,
   1, 0, 0, 0]

/-- Globals after a handshake that installed base `0x00400000`, mask `0x001FFFFF`. -/
def typicalGlobals : Globals :=
  { Globals.initial with GlobalIdBase := 0x00400000, GlobalIdMask := 0x001FFFFF,
                         GlobalRootWindow := 0x07654321, GlobalRootVisualId := 0x44332211 }

/-- Globals with base 0 and the non-contiguous mask 5. -/
def sparseMaskGlobals : Globals :=
  { Globals.initial with GlobalIdBase := 0, GlobalIdMask := 5 }

/-- An Expose event: sequence 7, window `0x00400000`, x 1, y 2, width 600,
height 300, count 3. -/
def exposeFrame : List Nat :=
  [12, 0, 7, 0, 0, 0, 0x40, 0,
   1, 0, 2, 0, 0x58, 0x02, 0x2C, 0x01,
   3, 0, 0, 0, 0, 0, 0, 0,
   0, 0, 0, 0, 0, 0, 0, 0]

/-- A KeyPress event: key code 200, sequence 5, time `0x84030201`, root window 4,
event window 5, child 0, root position (-1, 2), event position (3, -4), key-button
mask `0x0015`, same-screen 1. -/
def keyPressFrame : List Nat :=
  [2, 200, 5, 0, 1, 2, 3, 0x84,
   4, 0, 0, 0, 5, 0, 0, 0,
   0, 0, 0, 0, 0xFF, 0xFF, 2, 0,
   3, 0, 0xFC, 0xFF, 0x15, 0, 1, 0]

/-- An error frame with error code 3, minor opcode 0, major opcode 8. -/
def windowErrorFrame : List Nat :=
  [0, 3, 9, 0, 0x99, 0, 0x40, 0,
   0, 0, 8, 0, 0, 0, 0, 0,
   0, 0, 0, 0, 0, 0, 0, 0,
   0, 0, 0, 0, 0, 0, 0, 0]

/-- An error frame with error code 200, minor opcode 0, major opcode 8. -/
def unknownErrorFrame : List Nat :=
  [0, 200, 9, 0, 0x99, 0, 0x40, 0,
   0, 0, 8, 0, 0, 0, 0, 0,
   0, 0, 0, 0, 0, 0, 0, 0,
   0, 0, 0, 0, 0, 0, 0, 0]

/-- The font name `fixed`. -/
def fixedFontName : List Nat := [102, 105, 120, 101, 100]

/-- The text `Hello, World!`. -/
def helloText : List Nat := [72, 101, 108, 108, 111, 44, 32, 87, 111, 114, 108, 100, 33]

/-! ## Bit-level facts -/

theorem testBit_of_lt32 {n : Nat} (h : n < 2^32) {i : Nat} (hi : 32 ≤ i) : n.testBit i = false := by
  apply Nat.testBit_lt_two_pow
  calc n < 2^32 := h
    _ ≤ 2^i := Nat.pow_le_pow_right (by decide) hi

theorem and_mod32 {M : Nat} (hM : M < 2^32) (k : Nat) : M &&& (k % 2^32) = k &&& M := by
  apply Nat.eq_of_testBit_eq
  intro i
  rw [Nat.testBit_and, Nat.testBit_and, Nat.testBit_mod_two_pow]
  by_cases hi : i < 32
  · simp [hi, Bool.and_comm]
  · have := testBit_of_lt32 hM (Nat.le_of_not_lt hi)
    simp [this]

theorem not32_testBit (n i : Nat) : (not32 n).testBit i = (n.testBit i ^^ decide (i < 32)) := by
  unfold not32
  rw [Nat.testBit_xor, show (0xFFFFFFFF : Nat) = 2^32 - 1 from rfl, Nat.testBit_two_pow_sub_one]

theorem id_and_not_mask (c B : Nat) {M : Nat} (hM : M < 2^32) :
    ((M &&& c) ||| B) &&& not32 M = B &&& not32 M := by
  apply Nat.eq_of_testBit_eq
  intro i
  simp only [Nat.testBit_and, Nat.testBit_or, not32_testBit]
  by_cases h32 : i < 32
  · cases M.testBit i <;> cases c.testBit i <;> cases B.testBit i <;> simp [h32]
  · simp [testBit_of_lt32 hM (Nat.le_of_not_lt h32)]

theorem and_not_mask_eq_iff {B : Nat} (hB : B < 2^32) (M : Nat) :
    B &&& not32 M = B ↔ B &&& M = 0 := by
  constructor
  · intro h
    apply Nat.eq_of_testBit_eq
    intro i
    have hi := congrArg (fun n => n.testBit i) h
    simp only [Nat.testBit_and, not32_testBit] at hi
    simp only [Nat.testBit_and, Nat.zero_testBit]
    by_cases h32 : i < 32
    · revert hi
      cases B.testBit i <;> cases M.testBit i <;> simp [h32]
    · simp [testBit_of_lt32 hB (Nat.le_of_not_lt h32)]
  · intro h
    apply Nat.eq_of_testBit_eq
    intro i
    have hi := congrArg (fun n => n.testBit i) h
    simp only [Nat.testBit_and, Nat.zero_testBit] at hi
    simp only [Nat.testBit_and, not32_testBit]
    by_cases h32 : i < 32
    · revert hi
      cases B.testBit i <;> cases M.testBit i <;> simp [h32]
    · simp [testBit_of_lt32 hB (Nat.le_of_not_lt h32)]

theorem afterCalls_eq (g : Globals) (h0 : g.GlobalId = 0) (k : Nat) :
    afterCalls k g = { g with GlobalId := k % 2^32 } := by
  induction k with
  | zero => cases g; simp_all [afterCalls]
  | succ k ih =>
    simp only [afterCalls, ih, GetNextId]
    congr 1
    omega

/-! ## Arrays, loads and stores -/

theorem read_fst (s : Sock) (Buf : List Nat) (off count : Nat) :
    (s.read Buf off count).1
      = Buf.take off ++ s.incoming.take count ++ Buf.drop (off + (s.incoming.take count).length) := rfl

theorem read_incoming (s : Sock) (Buf : List Nat) (off count : Nat) :
    (s.read Buf off count).2.2.incoming = s.incoming.drop count := rfl

theorem read_outgoing (s : Sock) (Buf : List Nat) (off count : Nat) :
    (s.read Buf off count).2.2.outgoing = s.outgoing := rfl

theorem read_padded (s : Sock) (P : List Nat) (z off count : Nat) (hP : P.length = off) :
    (s.read (P ++ List.replicate z 0) off count).1
      = P ++ s.incoming.take count
          ++ List.replicate (z - (s.incoming.take count).length) 0 := by
  subst hP
  rw [read_fst, List.take_left, List.drop_append, List.drop_replicate]

theorem read_nothing (s : Sock) (Buf : List Nat) (off count : Nat)
    (h : s.incoming.take count = []) : (s.read Buf off count).1 = Buf := by
  rw [read_fst, h]
  simp

/-- The array `ReadBuffer` after the two `read` calls of the handshake. -/
theorem handshake_buffer (s : Sock) :
    ((s.read (List.replicate READ_BUFFER_SIZE 0) 0 8).2.2.read
        (s.read (List.replicate READ_BUFFER_SIZE 0) 0 8).1 8 (READ_BUFFER_SIZE - 8)).1
      = s.incoming.take 16384 ++ List.replicate (16384 - (s.incoming.take 16384).length) 0 := by
  have h1 : (s.read (List.replicate READ_BUFFER_SIZE 0) 0 8).1
      = s.incoming.take 8 ++ List.replicate (16384 - (s.incoming.take 8).length) 0 := by
    have := read_padded s [] 16384 0 8 rfl
    rw [List.nil_append, List.nil_append] at this
    exact this
  by_cases hlen : 8 ≤ s.incoming.length
  · have hl8 : (s.incoming.take 8).length = 8 := by simp [hlen]
    rw [h1, hl8]
    have := read_padded (s.read (List.replicate READ_BUFFER_SIZE 0) 0 8).2.2 (s.incoming.take 8)
      (16384 - 8) 8 (READ_BUFFER_SIZE - 8) hl8
    rw [this, read_incoming]
    have e : List.take 16384 s.incoming
        = List.take 8 s.incoming ++ List.take (READ_BUFFER_SIZE - 8) (List.drop 8 s.incoming) := by
      rw [show (16384 : Nat) = 8 + (READ_BUFFER_SIZE - 8) from rfl, List.take_add]
    rw [e]
    congr 1
    simp only [List.length_append, List.length_take, List.length_drop, READ_BUFFER_SIZE]
    congr 1
    omega
  · have hlt : s.incoming.length < 8 := Nat.lt_of_not_le hlen
    rw [read_nothing]
    · rw [h1, List.take_of_length_le (by omega), List.take_of_length_le (by omega)]
    · rw [read_incoming, List.drop_of_length_le (by omega)]
      rfl

theorem zeroPadded_getElem_opt (l : List Nat) (size i : Nat) :
    (zeroPadded l size)[i]? = if i < size then some (byteAt l i) else none := by
  unfold zeroPadded byteAt
  rw [List.getElem?_append, List.getElem?_take, List.getElem?_replicate, List.length_take,
    List.getD_eq_getElem?_getD]
  by_cases h1 : i < size
  · by_cases h2 : i < l.length
    · have h3 : i < min size l.length := by omega
      simp [h1, h2, h3]
    · have h3 : ¬ i < min size l.length := by omega
      have h4 : i - min size l.length < size - min size l.length := by omega
      have h5 : l[i]? = none := List.getElem?_eq_none (by omega)
      simp [h1, h3, h4, h5]
  · have h3 : ¬ i < min size l.length := by omega
    have h4 : ¬ i - min size l.length < size - min size l.length := by omega
    simp [h1, h3, h4]

theorem loadByte_zeroPadded (l : List Nat) (size i : Nat) :
    loadByte (zeroPadded l size) (i : Int)
      = if i < size then .ok (byteAt l i) else .error .outOfBounds := by
  unfold loadByte
  rw [if_neg (by omega), Int.toNat_ofNat, zeroPadded_getElem_opt]
  by_cases h : i < size
  · simp only [h, if_true]
  · simp only [h, if_false]

theorem load16_zeroPadded (l : List Nat) (size i : Nat) :
    load16 (zeroPadded l size) (i : Int)
      = if i + 1 < size then .ok (u16At l i) else .error .outOfBounds := by
  unfold load16
  rw [show (i : Int) + 1 = ((i + 1 : Nat) : Int) by push_cast; ring]
  simp only [loadByte_zeroPadded]
  by_cases h1 : i + 1 < size
  · have h0 : i < size := by omega
    simp only [h0, h1, if_true]
    rfl
  · by_cases h0 : i < size
    · simp only [h0, h1, if_true, if_false]; rfl
    · simp only [h0, h1, if_false]; rfl

theorem load32_zeroPadded (l : List Nat) (size i : Nat) :
    load32 (zeroPadded l size) (i : Int)
      = if i + 3 < size then .ok (u32At l i) else .error .outOfBounds := by
  unfold load32
  rw [show (i : Int) + 1 = ((i + 1 : Nat) : Int) by push_cast; ring,
    show (i : Int) + 2 = ((i + 2 : Nat) : Int) by push_cast; ring,
    show (i : Int) + 3 = ((i + 3 : Nat) : Int) by push_cast; ring]
  simp only [loadByte_zeroPadded]
  by_cases h3 : i + 3 < size
  · have h0 : i < size := by omega
    have h1 : i + 1 < size := by omega
    have h2 : i + 2 < size := by omega
    simp only [h0, h1, h2, h3, if_true]
    rfl
  · by_cases h0 : i < size <;> by_cases h1 : i + 1 < size <;> by_cases h2 : i + 2 < size <;>
      simp only [h0, h1, h2, h3, if_true, if_false] <;> rfl

theorem PAD_natCast (n : Nat) : PAD (n : Int) = ((pad n : Nat) : Int) := by
  unfold PAD pad
  have h1 : (n : Int).tmod 4 = (n : Int) % 4 := Int.tmod_eq_emod (by omega) (by decide)
  rw [h1]
  have h2 : (4 - (n : Int) % 4).tmod 4 = (4 - (n : Int) % 4) % 4 :=
    Int.tmod_eq_emod (by omega) (by decide)
  rw [h2]
  omega

theorem first_read (s : Sock) :
    (s.read (List.replicate READ_BUFFER_SIZE 0) 0 8).1 = zeroPadded (s.incoming.take 8) 16384 := by
  have := read_padded s [] 16384 0 8 rfl
  rw [List.nil_append, List.nil_append] at this
  unfold zeroPadded
  rw [List.take_of_length_le (l := List.take 8 s.incoming)
    (by rw [List.length_take]; omega)]
  exact this

theorem second_read (s : Sock) :
    ((s.read (List.replicate READ_BUFFER_SIZE 0) 0 8).2.2.read
        (s.read (List.replicate READ_BUFFER_SIZE 0) 0 8).1 8 (READ_BUFFER_SIZE - 8)).1
      = zeroPadded s.incoming 16384 := handshake_buffer s

theorem byteAt_take (l : List Nat) (n i : Nat) (h : i < n) :
    byteAt (l.take n) i = byteAt l i := by
  unfold byteAt
  rw [List.getD_eq_getElem?_getD, List.getD_eq_getElem?_getD, List.getElem?_take, if_pos h]

theorem first_byte (s : Sock) :
    loadByte (s.read (List.replicate READ_BUFFER_SIZE 0) 0 8).1 0
      = .ok (byteAt s.incoming 0) := by
  rw [first_read, show (0 : Int) = ((0 : Nat) : Int) from rfl, loadByte_zeroPadded,
    if_pos (by decide), byteAt_take _ _ _ (by decide)]

theorem byteAt_lt (l : List Nat) (hb : ∀ b ∈ l, b < 256) (i : Nat) : byteAt l i < 256 := by
  unfold byteAt
  rw [List.getD_eq_getElem?_getD]
  by_cases h : i < l.length
  · rw [List.getElem?_eq_getElem h]
    exact hb _ (List.getElem_mem h)
  · rw [List.getElem?_eq_none (by omega)]
    decide

theorem loadByte_frame (l : List Nat) (i : Nat) (z : Int) (hz : z = i) (h : i < 16384) :
    loadByte (zeroPadded l 16384) z = .ok (byteAt l i) := by
  subst hz; rw [loadByte_zeroPadded, if_pos h]

theorem load16_frame (l : List Nat) (i : Nat) (z : Int) (hz : z = i) (h : i + 1 < 16384) :
    load16 (zeroPadded l 16384) z = .ok (u16At l i) := by
  subst hz; rw [load16_zeroPadded, if_pos h]

theorem load32_frame (l : List Nat) (i : Nat) (z : Int) (hz : z = i) (h : i + 3 < 16384) :
    load32 (zeroPadded l 16384) z = .ok (u32At l i) := by
  subst hz; rw [load32_zeroPadded, if_pos h]

theorem load32_frame_fault (l : List Nat) (i : Nat) (z : Int) (hz : z = i) (h : 16384 ≤ i + 3) :
    load32 (zeroPadded l 16384) z = .error .outOfBounds := by
  subst hz; rw [load32_zeroPadded, if_neg (by omega)]

theorem screens_start (l : List Nat) (hb : ∀ b ∈ l, b < 256) :
    (40 : Int) + (u16At l 24 : Nat) + PAD ((u16At l 24 : Nat) : Int)
        + 8 * ((u16At l 29 % 256 : Nat) : Int) = ((screenOffset l : Nat) : Int) := by
  have h29 : u16At l 29 % 256 = byteAt l 29 := by
    have := byteAt_lt l hb 29
    unfold u16At
    omega
  rw [PAD_natCast, h29]
  unfold screenOffset
  push_cast
  ring

theorem X_InitiateConnection_other (g : Globals) (s : Sock)
    (h0 : byteAt s.incoming 0 ≠ 0) (h1 : byteAt s.incoming 0 ≠ 1) :
    (X_InitiateConnection g s).1 = .ok { SetupStatus := 1, globals := g, dump := none } := by
  unfold X_InitiateConnection
  simp only []
  rw [first_byte]
  simp only [RESPONSE_STATE_FAILED, RESPONSE_STATE_AUTHENTICATE, RESPONSE_STATE_SUCCESS]
  have e : (s.write InitializationRequest).incoming = s.incoming := rfl
  rw [e, if_neg h0]
  by_cases h2 : byteAt s.incoming 0 = 2
  · rw [if_pos h2]
  · rw [if_neg h2, if_neg h1]

theorem X_InitiateConnection_success (g : Globals) (s : Sock) (hb : ∀ b ∈ s.incoming, b < 256)
    (h1 : byteAt s.incoming 0 = 1) :
    (X_InitiateConnection g s).1 =
      if screenOffset s.incoming + 36 ≤ 16384 then
        .ok { SetupStatus := 0,
              globals := { g with GlobalIdBase := u32At s.incoming 12,
                                  GlobalIdMask := u32At s.incoming 16,
                                  GlobalRootWindow := u32At s.incoming (screenOffset s.incoming),
                                  GlobalRootVisualId :=
                                    u32At s.incoming (screenOffset s.incoming + 32) },
              dump := none }
      else .error .outOfBounds := by
  unfold X_InitiateConnection
  simp only []
  rw [first_byte, second_read]
  simp only [RESPONSE_STATE_FAILED, RESPONSE_STATE_AUTHENTICATE, RESPONSE_STATE_SUCCESS]
  have e : (s.write InitializationRequest).incoming = s.incoming := rfl
  rw [e, h1, if_neg (by decide), if_neg (by decide), if_pos rfl]
  rw [loadByte_frame _ 1 1 rfl (by decide), load16_frame _ 2 2 rfl (by decide),
    load16_frame _ 4 4 rfl (by decide), load16_frame _ 6 6 rfl (by decide),
    load32_frame _ 12 12 rfl (by decide), load32_frame _ 16 16 rfl (by decide),
    load16_frame _ 24 24 rfl (by decide), load16_frame _ 29 29 rfl (by decide)]
  simp only [bind, Except.bind, screens_start s.incoming hb]
  by_cases hS : screenOffset s.incoming + 36 ≤ 16384
  · rw [if_pos hS, load32_frame _ (screenOffset s.incoming) _ rfl (by omega),
      load32_frame _ (screenOffset s.incoming + 32) _ (by push_cast; ring) (by omega)]
    rfl
  · rw [if_neg hS]
    by_cases hR : screenOffset s.incoming + 3 < 16384
    · rw [load32_frame _ (screenOffset s.incoming) _ rfl hR,
        load32_frame_fault _ (screenOffset s.incoming + 32) _ (by push_cast; ring) (by omega)]
    · rw [load32_frame_fault _ (screenOffset s.incoming) _ rfl (by omega)]

theorem X_InitiateConnection_outgoing (g : Globals) (s : Sock) :
    (X_InitiateConnection g s).2.outgoing = s.outgoing ++ InitializationRequest := by
  unfold X_InitiateConnection
  simp only []
  rw [first_byte]
  simp only []
  split
  · rfl
  · split
    · rfl
    · split <;> rfl

theorem store8_append (A B : List Nat) (i v : Nat) (h : i < A.length) :
    store8 (A ++ B) i v = store8 A i v ++ B := by
  unfold store8
  rw [List.set_append_left _ _ h]

theorem store16_append (A B : List Nat) (i v : Nat) (h : i + 1 < A.length) :
    store16 (A ++ B) i v = store16 A i v ++ B := by
  unfold store16
  rw [List.set_append_left _ _ (by omega), List.set_append_left _ _ (by rw [List.length_set]; omega)]

theorem store32_append (A B : List Nat) (i v : Nat) (h : i + 3 < A.length) :
    store32 (A ++ B) i v = store32 A i v ++ B := by
  unfold store32
  rw [List.set_append_left _ _ (by omega),
    List.set_append_left _ _ (by rw [List.length_set]; omega),
    List.set_append_left _ _ (by rw [List.length_set, List.length_set]; omega),
    List.set_append_left _ _ (by rw [List.length_set, List.length_set, List.length_set]; omega)]

theorem store8_length (A : List Nat) (i v : Nat) : (store8 A i v).length = A.length := by
  unfold store8; rw [List.length_set]

theorem store16_length (A : List Nat) (i v : Nat) : (store16 A i v).length = A.length := by
  unfold store16; rw [List.length_set, List.length_set]

theorem store32_length (A : List Nat) (i v : Nat) : (store32 A i v).length = A.length := by
  unfold store32; rw [List.length_set, List.length_set, List.length_set, List.length_set]

theorem X_CreatWindow_eq (g : Globals) (s : Sock) (X Y Width Height : Int) :
    X_CreatWindow g s X Y Width Height
      = ((GetNextId g).1, (GetNextId g).2,
          s.write (createWindowBytes (GetNextId g).1 g.GlobalRootWindow g.GlobalRootVisualId
            (wrap16 X) (wrap16 Y) (wrap16 Width) (wrap16 Height))) := by
  unfold X_CreatWindow
  simp only []
  rw [show (16 * 1024 : Nat) = 40 + 16344 from rfl, List.replicate_add]
  have hlen : (List.replicate 40 (0 : Nat)).length = 40 := List.length_replicate _ _
  simp only [store8_append, store16_append, store32_append, store8_length, store16_length,
    store32_length, hlen, Nat.reduceLT, Nat.reduceAdd]
  rw [show ((8 : Int) + 2) * 4 = 40 from rfl, show (40 : Int).toNat = 40 from rfl,
    List.take_left' (by simp only [store8_length, store16_length, store32_length, hlen])]
  have hz : List.replicate 40 (0 : Nat)
      = [0,0,0,0,0,0,0,0,0,0, 0,0,0,0,0,0,0,0,0,0, 0,0,0,0,0,0,0,0,0,0, 0,0,0,0,0,0,0,0,0,0] := rfl
  have hg1 : (GetNextId g).2.GlobalRootWindow = g.GlobalRootWindow := rfl
  have hg2 : (GetNextId g).2.GlobalRootVisualId = g.GlobalRootVisualId := rfl
  have hw8 : wrap8 0 = 0 := rfl
  have hw10 : wrap16 (8 + 2) = 10 := rfl
  have hw1 : wrap16 1 = 1 := rfl
  have hf1 : X11_FLAG_WIN_EVENT ||| X11_FLAG_BACKGROUND_PIXEL = 2050 := rfl
  have hf2 : X11_EVENT_FLAG_EXPOSURE ||| X11_EVENT_FLAG_KEY_PRESS = 32769 := rfl
  rw [hz, hg1, hg2, hw8, hw10, hw1, hf1, hf2]
  simp only [store8, store16, store32, List.set_cons_succ, List.set_cons_zero, Nat.reduceAdd,
    createWindowBytes, X11_REQUEST_CREATE_WINDOW, WINDOWCLASS_INPUTOUTPUT, Nat.reduceMod,
    Nat.reduceDiv]

theorem takeWhile_nonzero (l : List Nat) (h : 0 ∉ l) :
    l.takeWhile (fun b => b != 0) = l := by
  induction l with
  | nil => rfl
  | cons b rest ih =>
    have hb : b ≠ 0 := fun e => h (by rw [e]; exact List.mem_cons_self _ _)
    have hr : 0 ∉ rest := fun e => h (List.mem_cons_of_mem _ e)
    rw [List.takeWhile_cons, ih hr]
    simp [hb]

theorem strlen_nonzero (l : List Nat) (h : 0 ∉ l) : strlen l = l.length := by
  unfold strlen
  rw [takeWhile_nonzero l h]

theorem strncpy_padded (H Src : List Nat) (z off : Nat) (n : Int) (hoff : H.length = off)
    (h0 : 0 ≤ n) (hfit : n ≤ z) :
    strncpy (H ++ List.replicate z 0) off Src n
      = .ok (H ++ ((Src.takeWhile (fun b => b != 0)).take n.toNat
                    ++ List.replicate (n.toNat - strlen Src) 0)
              ++ List.replicate (z - n.toNat) 0) := by
  subst hoff
  unfold strncpy
  rw [if_pos, List.take_left, List.drop_append, List.drop_replicate]
  refine ⟨h0, ?_⟩
  rw [List.length_append, List.length_replicate]
  push_cast
  omega

theorem WriteText_eq (s : Sock) (WindowId GCid X Y : Int) (Text : List Nat) (TextLength : Int)
    (h0 : 0 ≤ TextLength) (hfit : TextLength ≤ 16368) :
    WriteText s WindowId GCid X Y Text TextLength
      = (firstBytes
          (imageText8Header (wrap8 TextLength)
              (wrap32 (4 + (TextLength + PAD TextLength).tdiv 4))
              (wrap32 WindowId) (wrap32 GCid) (wrap16 X) (wrap16 Y)
            ++ ((Text.takeWhile (fun b => b != 0)).take TextLength.toNat
                  ++ List.replicate (TextLength.toNat - strlen Text) 0)
            ++ List.replicate (16368 - TextLength.toNat) 0)
          ((wrap32 (4 + (TextLength + PAD TextLength).tdiv 4) * 4 % 4294967296 : Nat) : Int)).map
        (fun bytes => s.write bytes) := by
  unfold WriteText
  simp only []
  rw [show (16 * 1024 : Nat) = 16 + 16368 from rfl, List.replicate_add]
  have hlen : (List.replicate 16 (0 : Nat)).length = 16 := List.length_replicate _ _
  simp only [store8_append, store16_append, store32_append, store8_length, store16_length,
    store32_length, hlen, Nat.reduceLT, Nat.reduceAdd]
  rw [strncpy_padded _ _ _ _ _
    (by simp only [store8_length, store16_length, store32_length, hlen]) h0 (by exact_mod_cast hfit)]
  have hz : List.replicate 16 (0 : Nat) = [0,0,0,0,0,0,0,0, 0,0,0,0,0,0,0,0] := rfl
  rw [hz]
  simp only [store8, store16, store32, List.set_cons_succ, List.set_cons_zero, Nat.reduceAdd,
    imageText8Header, X11_REQUEST_IMAGE_TEXT_8, Nat.reduceMod]
  rfl

theorem cString_ok (l : List Nat) (h : 0 ∈ l) :
    cString l = .ok (l.takeWhile (fun b => b != 0)) := by
  induction l with
  | nil => cases h
  | cons b rest ih =>
    unfold cString
    by_cases hb : b = 0
    · subst hb
      simp
    · have hr : 0 ∈ rest := by
        rcases List.mem_cons.mp h with h' | h'
        · exact absurd h'.symm hb
        · exact h'
      rw [if_neg hb, ih hr]
      simp [List.takeWhile_cons, hb, Except.map]

theorem cString_fault (l : List Nat) (h : 0 ∉ l) : cString l = .error .outOfBounds := by
  induction l with
  | nil => rfl
  | cons b rest ih =>
    unfold cString
    have hb : b ≠ 0 := fun e => h (by rw [e]; exact List.mem_cons_self _ _)
    have hr : 0 ∉ rest := fun e => h (List.mem_cons_of_mem _ e)
    rw [if_neg hb, ih hr]
    rfl

theorem cString_append_zeros (l : List Nat) (z : Nat) (h : 0 ∉ l) :
    cString (l ++ List.replicate (z + 1) 0) = .ok l := by
  induction l with
  | nil => rw [List.nil_append, List.replicate_succ]; unfold cString; rw [if_pos rfl]
  | cons b rest ih =>
    have hb : b ≠ 0 := fun e => h (by rw [e]; exact List.mem_cons_self _ _)
    have hr : 0 ∉ rest := fun e => h (List.mem_cons_of_mem _ e)
    rw [List.cons_append]
    unfold cString
    rw [if_neg hb, ih hr]
    rfl

theorem u16At_take (l : List Nat) (n i : Nat) (h : i + 1 < n) :
    u16At (l.take n) i = u16At l i := by
  unfold u16At
  rw [byteAt_take _ _ _ (by omega), byteAt_take _ _ _ h]

theorem X_InitiateConnection_failed (g : Globals) (s : Sock) (h0 : byteAt s.incoming 0 = 0) :
    (X_InitiateConnection g s).1
      = (cString ((zeroPadded s.incoming 16384).drop 8)).map
          (fun m => { SetupStatus := 1, globals := g,
                      dump := some { State := 0, MajorVersion := u16At s.incoming 2,
                                     MinorVersion := u16At s.incoming 4,
                                     AdditionalDataLength := u16At s.incoming 6,
                                     Reason := m } }) := by
  unfold X_InitiateConnection
  simp only []
  rw [first_byte]
  simp only [RESPONSE_STATE_FAILED]
  have e : (s.write InitializationRequest).incoming = s.incoming := rfl
  rw [e, if_pos h0]
  unfold DumpResponseError
  simp only []
  rw [second_read, first_read, e]
  rw [loadByte_frame _ 1 1 rfl (by decide), load16_frame _ 2 2 rfl (by decide),
    load16_frame _ 4 4 rfl (by decide), load16_frame _ 6 6 rfl (by decide),
    loadByte_frame _ 0 0 rfl (by decide), h0,
    u16At_take _ _ _ (by decide), u16At_take _ _ _ (by decide), u16At_take _ _ _ (by decide)]
  cases cString (List.drop 8 (zeroPadded s.incoming 16384)) <;> rfl

theorem zero_mem_drop_zeroPadded (l : List Nat) (i : Nat) (h8 : 8 ≤ i) (hi : i < 16384)
    (hz : byteAt l i = 0) : 0 ∈ (zeroPadded l 16384).drop 8 := by
  rw [List.mem_iff_getElem?]
  refine ⟨i - 8, ?_⟩
  rw [List.getElem?_drop, zeroPadded_getElem_opt, show 8 + (i - 8) = i by omega, if_pos hi, hz]

theorem zeroPadded_short (hdr : List Nat) (n : Nat) (h : hdr.length = 8) :
    zeroPadded hdr (8 + n) = hdr ++ List.replicate n 0 := by
  unfold zeroPadded
  rw [List.take_of_length_le (by omega), h, Nat.add_sub_cancel_left]

theorem zeroPadded_append (hdr rest : List Nat) (n : Nat) (h : hdr.length = 8) :
    zeroPadded (hdr ++ rest) (8 + n)
      = hdr ++ rest.take n ++ List.replicate (n - (rest.take n).length) 0 := by
  unfold zeroPadded
  rw [List.take_append_eq_append_take, List.take_of_length_le (l := hdr) (by omega), h,
    Nat.add_sub_cancel_left, List.length_append, h]
  congr 2
  omega

theorem DumpResponseError_report (s : Sock) (hdr : List Nat) (h : hdr.length = 8) :
    (DumpResponseError s (zeroPadded hdr 16384)).1
      = (cString ((zeroPadded (hdr ++ s.incoming) 16384).drop 8)).map
          (fun m => { State := byteAt hdr 0, MajorVersion := u16At hdr 2,
                      MinorVersion := u16At hdr 4, AdditionalDataLength := u16At hdr 6,
                      Reason := m }) := by
  unfold DumpResponseError
  simp only []
  rw [loadByte_frame _ 1 1 rfl (by decide), load16_frame _ 2 2 rfl (by decide),
    load16_frame _ 4 4 rfl (by decide), load16_frame _ 6 6 rfl (by decide)]
  have e1 : zeroPadded hdr 16384 = hdr ++ List.replicate 16376 0 := zeroPadded_short hdr 16376 h
  have e2 : (s.read (zeroPadded hdr 16384) 8 (READ_BUFFER_SIZE - 8)).1
      = zeroPadded (hdr ++ s.incoming) 16384 := by
    rw [e1, read_padded s hdr 16376 8 (READ_BUFFER_SIZE - 8) h]
    exact (zeroPadded_append hdr s.incoming 16376 h).symm
  have e3 : byteAt (hdr ++ s.incoming) 0 = byteAt hdr 0 := by
    unfold byteAt
    rw [List.getD_eq_getElem?_getD, List.getD_eq_getElem?_getD,
      List.getElem?_append_left (by omega)]
  rw [e2, loadByte_frame _ 0 0 rfl (by decide), e3]
  cases cString (List.drop 8 (zeroPadded (hdr ++ s.incoming) 16384)) <;> rfl

/-! ## The handshake: claims C1 to C5 -/

/-- C1, as stated, fails: a Success response announcing a 65535-byte vendor string
puts the screen record at offset 65576, outside the 16384-byte read buffer, and
the call reads out of bounds instead of returning 0. -/
theorem X_InitiateConnection_oversized_vendor_faults :
    byteAt oversizedVendorFrame 0 = 1 ∧
    screenOffset oversizedVendorFrame = 65576 ∧
    (X_InitiateConnection Globals.initial ⟨oversizedVendorFrame, []⟩).1
      = .error .outOfBounds := by
  refine ⟨by decide, by decide, ?_⟩
  rw [X_InitiateConnection_success _ _ (by decide) (by decide), if_neg (by decide)]

/-- C1, amended: for every handshake response whose first byte is 1 and whose
screen record lies inside the read buffer (S + 36 ≤ 16384 with
S = 40 + v + pad(v) + 8*n), X_InitiateConnection returns 0 and sets the
resource-ID base to the u32 at offset 12, the mask to the u32 at offset 16, the
root window to the u32 at offset S and the root visual to the u32 at offset
S + 32; with v = 4 and n = 0 these last two offsets are 44 and 76. -/
theorem X_InitiateConnection_success_fields (g : Globals) (s : Sock)
    (hb : ∀ b ∈ s.incoming, b < 256) (h1 : byteAt s.incoming 0 = 1)
    (hS : screenOffset s.incoming + 36 ≤ 16384) :
    (X_InitiateConnection g s).1
      = .ok { SetupStatus := 0,
              globals := { g with GlobalIdBase := u32At s.incoming 12,
                                  GlobalIdMask := u32At s.incoming 16,
                                  GlobalRootWindow := u32At s.incoming (screenOffset s.incoming),
                                  GlobalRootVisualId :=
                                    u32At s.incoming (screenOffset s.incoming + 32) },
              dump := none } ∧
    (u16At s.incoming 24 = 4 → byteAt s.incoming 29 = 0 →
      screenOffset s.incoming = 44 ∧ screenOffset s.incoming + 32 = 76) := by
  constructor
  · rw [X_InitiateConnection_success g s hb h1, if_pos hS]
  · intro hv hn
    unfold screenOffset pad
    rw [hv, hn]
    decide

/-- Witness for C1: the crafted Success frame with vendor length 4 and no formats. -/
theorem X_InitiateConnection_success_fields_witness :
    (byteAt successFrame 0 = 1 ∧ u16At successFrame 24 = 4 ∧ byteAt successFrame 29 = 0) ∧
    (X_InitiateConnection Globals.initial ⟨successFrame, []⟩).1
      = .ok { SetupStatus := 0,
              globals := { Globals.initial with GlobalIdBase := 0x00400000,
                                                GlobalIdMask := 0x001FFFFF,
                                                GlobalRootWindow := 0x07654321,
                                                GlobalRootVisualId := 0x44332211 },
              dump := none } :=
  ⟨by decide,
   (X_InitiateConnection_success_fields Globals.initial ⟨successFrame, []⟩
      (by decide) (by decide) (by decide)).1⟩

/-- C2 at a failing input: for a Success response announcing a 16344-byte vendor
string the screen offset is 16384, the root window would be read at offsets
16384 to 16387 of the 16384-byte buffer, and the call performs that
out-of-range read rather than reporting a protocol error. -/
theorem X_InitiateConnection_reads_past_buffer :
    byteAt vendorToBufferEndFrame 0 = 1 ∧
    screenOffset vendorToBufferEndFrame = 16384 ∧
    (X_InitiateConnection Globals.initial ⟨vendorToBufferEndFrame, []⟩).1
      = .error .outOfBounds := by
  refine ⟨by decide, by decide, ?_⟩
  rw [X_InitiateConnection_success _ _ (by decide) (by decide), if_neg (by decide)]

/-- C3, as stated, fails in both directions it promises a status: a response with
first byte 1 whose screen record lies outside the buffer does not return 0, and
a Failed response whose data holds no NUL does not return a status at all. -/
theorem X_InitiateConnection_status_not_total :
    (byteAt manyFormatsFrame 0 = 1 ∧
      ¬ ∃ out, (X_InitiateConnection Globals.initial ⟨manyFormatsFrame, []⟩).1 = .ok out) ∧
    (byteAt unterminatedFailureFrame 0 = 0 ∧
      ¬ ∃ out, (X_InitiateConnection Globals.initial ⟨unterminatedFailureFrame, []⟩).1
          = .ok out) := by
  refine ⟨⟨by decide, ?_⟩, ⟨rfl, ?_⟩⟩
  · rw [X_InitiateConnection_success _ _ (by decide) (by decide), if_neg (by decide)]
    rintro ⟨out, h⟩
    cases h
  · have hlen : unterminatedFailureFrame.length = 16384 := by
      simp only [unterminatedFailureFrame, List.length_append, List.length_cons, List.length_nil,
        List.length_replicate]
    have hdrop : (zeroPadded unterminatedFailureFrame 16384).drop 8 = List.replicate 16376 65 := by
      unfold zeroPadded
      rw [List.take_of_length_le (by omega), hlen, Nat.sub_self, List.replicate_zero,
        List.append_nil]
      exact List.drop_left' rfl
    have hno : (0 : Nat) ∉ List.replicate 16376 65 := by
      intro h
      have := List.eq_of_mem_replicate h
      omega
    rw [X_InitiateConnection_failed Globals.initial ⟨unterminatedFailureFrame, []⟩ rfl, hdrop,
      cString_fault _ hno]
    rintro ⟨out, h⟩
    cases h

/-- C3, amended: whenever X_InitiateConnection returns, its status is 0 exactly
when the first byte of the response is 1, and a non-zero status leaves the
globals as they were.  It does return 0 for a Success response whose screen
record lies inside the read buffer; it returns 1 with the globals unchanged for
Authenticate (2) and every first byte other than 0 and 1, and for a Failed (0)
response whose data holds a NUL inside the read buffer. -/
theorem X_InitiateConnection_status (g : Globals) (s : Sock)
    (hb : ∀ b ∈ s.incoming, b < 256) :
    (∀ out, (X_InitiateConnection g s).1 = .ok out →
        (out.SetupStatus = 0 ↔ byteAt s.incoming 0 = 1) ∧
        (out.SetupStatus ≠ 0 → out.globals = g)) ∧
    (byteAt s.incoming 0 = 1 → screenOffset s.incoming + 36 ≤ 16384 →
        ∃ out, (X_InitiateConnection g s).1 = .ok out ∧ out.SetupStatus = 0) ∧
    (byteAt s.incoming 0 ≠ 0 → byteAt s.incoming 0 ≠ 1 →
        (X_InitiateConnection g s).1
          = .ok { SetupStatus := 1, globals := g, dump := none }) ∧
    (byteAt s.incoming 0 = 0 →
        (∃ i, 8 ≤ i ∧ i < 16384 ∧ byteAt s.incoming i = 0) →
        ∃ d, (X_InitiateConnection g s).1
          = .ok { SetupStatus := 1, globals := g, dump := some d }) := by
  refine ⟨?_, ?_, ?_, ?_⟩
  · intro out hout
    by_cases h0 : byteAt s.incoming 0 = 0
    · rw [X_InitiateConnection_failed g s h0] at hout
      cases hc : cString (List.drop 8 (zeroPadded s.incoming 16384)) with
      | error f => rw [hc] at hout; cases hout
      | ok m =>
        rw [hc] at hout
        cases hout
        refine ⟨⟨fun h => ?_, fun h => ?_⟩, fun _ => rfl⟩
        · have h' : (1 : Int) = 0 := h
          omega
        · omega
    · by_cases h1 : byteAt s.incoming 0 = 1
      · rw [X_InitiateConnection_success g s hb h1] at hout
        by_cases hS : screenOffset s.incoming + 36 ≤ 16384
        · rw [if_pos hS] at hout
          cases hout
          exact ⟨⟨fun _ => h1, fun _ => rfl⟩, fun h => absurd rfl h⟩
        · rw [if_neg hS] at hout
          cases hout
      · rw [X_InitiateConnection_other g s h0 h1] at hout
        cases hout
        refine ⟨⟨fun h => ?_, fun h => absurd h h1⟩, fun _ => rfl⟩
        have h' : (1 : Int) = 0 := h
        omega
  · intro h1 hS
    rw [X_InitiateConnection_success g s hb h1, if_pos hS]
    exact ⟨_, rfl, rfl⟩
  · intro h0 h1
    exact X_InitiateConnection_other g s h0 h1
  · rintro h0 ⟨i, h8, hi, hz⟩
    rw [X_InitiateConnection_failed g s h0,
      cString_ok _ (zero_mem_drop_zeroPadded s.incoming i h8 hi hz)]
    exact ⟨_, rfl⟩

/-- Witness for C3: an Authenticate response returns status 1 and leaves the
globals untouched. -/
theorem X_InitiateConnection_status_witness :
    (byteAt authenticateFrame 0 ≠ 0 ∧ byteAt authenticateFrame 0 ≠ 1) ∧
    (X_InitiateConnection typicalGlobals ⟨authenticateFrame, []⟩).1
      = .ok { SetupStatus := 1, globals := typicalGlobals, dump := none } :=
  ⟨by decide,
   (X_InitiateConnection_status typicalGlobals ⟨authenticateFrame, []⟩ (by decide)).2.2.1
      (by decide) (by decide)⟩

/-- C4: the handshake request is the 12 bytes 0x6C, 0, 11, 0, 0, 0, 0, 0, 0, 0, 0, 0
(byte-order marker for little-endian, a reserved byte, major version 11 and minor
version 0 as little-endian u16, zero authorization name and data lengths), and
every call of X_InitiateConnection writes exactly these to the socket. -/
theorem X_InitiateConnection_request_bytes :
    InitializationRequest = [0x6C, 0, 11, 0, 0, 0, 0, 0, 0, 0, 0, 0] ∧
    (load16 InitializationRequest 2 = .ok 11 ∧ load16 InitializationRequest 4 = .ok 0 ∧
      load16 InitializationRequest 6 = .ok 0 ∧ load16 InitializationRequest 8 = .ok 0) ∧
    ∀ (g : Globals) (s : Sock),
      (X_InitiateConnection g s).2.outgoing
        = s.outgoing ++ [0x6C, 0, 11, 0, 0, 0, 0, 0, 0, 0, 0, 0] := by
  have h : InitializationRequest = [0x6C, 0, 11, 0, 0, 0, 0, 0, 0, 0, 0, 0] := by decide
  refine ⟨h, by decide, fun g s => ?_⟩
  rw [X_InitiateConnection_outgoing, h]

/-- C5 at a failing input: for a Failed response with reason length 2 whose data
bytes are the four characters n, o, p, e, the reason DumpResponseError prints is
all four bytes, not the first two; the same is seen when X_InitiateConnection
receives the frame and calls it. -/
theorem DumpResponseError_reason_runs_past_length :
    byteAt failureNopeFrame 0 = 0 ∧ byteAt failureNopeFrame 1 = 2 ∧
    (DumpResponseError ⟨[110, 111, 112, 101], []⟩
        (zeroPadded [0, 2, 11, 0, 0, 0, 1, 0] 16384)).1
      = .ok { State := 0, MajorVersion := 11, MinorVersion := 0, AdditionalDataLength := 1,
              Reason := [110, 111, 112, 101] } ∧
    (X_InitiateConnection Globals.initial ⟨failureNopeFrame, []⟩).1
      = .ok { SetupStatus := 1, globals := Globals.initial,
              dump := some { State := 0, MajorVersion := 11, MinorVersion := 0,
                             AdditionalDataLength := 1,
                             Reason := [110, 111, 112, 101] } } := by
  have hdrop : (zeroPadded failureNopeFrame 16384).drop 8
      = [110, 111, 112, 101] ++ List.replicate (16371 + 1) 0 := by
    unfold zeroPadded
    rw [List.take_of_length_le (by decide), List.drop_append_of_le_length (by decide)]
    rfl
  refine ⟨by decide, by decide, ?_, ?_⟩
  · rw [DumpResponseError_report ⟨[110, 111, 112, 101], []⟩ [0, 2, 11, 0, 0, 0, 1, 0] rfl]
    show Except.map _ (cString ((zeroPadded failureNopeFrame 16384).drop 8)) = _
    rw [hdrop, cString_append_zeros _ _ (by decide)]
    rfl
  · rw [X_InitiateConnection_failed _ _ (by decide), hdrop,
      cString_append_zeros _ _ (by decide)]
    rfl

/-! ## Resource IDs -/

theorem GetNextId_lt (g : Globals) (hwf : g.WF) : (GetNextId g).1 < 2^32 :=
  Nat.or_lt_two_pow (Nat.and_lt_two_pow _ hwf.1) hwf.2.1

theorem id_eq_add {B M c k : Nat} (hM : M = 2^k - 1) (hdisj : B &&& M = 0) (hc : c ≤ M) :
    (M &&& c) ||| B = 2^k * (B / 2^k) + c ∧ c < 2^k := by
  have hpos : 0 < 2^k := Nat.two_pow_pos k
  have hc' : c < 2^k := by omega
  have h1 : M &&& c = c := by
    rw [Nat.and_comm, hM, Nat.and_pow_two_sub_one_eq_mod, Nat.mod_eq_of_lt hc']
  have h2 : B % 2^k = 0 := by
    rw [← Nat.and_pow_two_sub_one_eq_mod, ← hM]
    exact hdisj
  have h3 : B = 2^k * (B / 2^k) := by
    have := Nat.div_add_mod B (2^k)
    omega
  refine ⟨?_, hc'⟩
  rw [h1, Nat.or_comm]
  conv_lhs => rw [h3]
  exact (Nat.mul_add_lt_is_or hc' _).symm

theorem le32_decode (v : Nat) (h : v < 2^32) :
    v % 256 + 256 * (v / 256 % 256) + 65536 * (v / 65536 % 256)
      + 16777216 * (v / 16777216 % 256) = v := by
  omega

theorem toInt16_wrap16 (z : Int) (h : -32768 ≤ z ∧ z < 32768) :
    toInt16 (wrap16 z % 256 + 256 * (wrap16 z / 256 % 256)) = z := by
  unfold toInt16 wrap16
  split <;> omega

theorem u16_wrap16 (z : Int) (h : 0 ≤ z ∧ z < 65536) :
    ((wrap16 z % 256 + 256 * (wrap16 z / 256 % 256) : Nat) : Int) = z := by
  unfold wrap16
  omega

theorem sentBy_write (s : Sock) (bytes : List Nat) : sentBy s (s.write bytes) = bytes := by
  unfold sentBy Sock.write
  exact List.drop_left' rfl

/-! ## The resource-ID allocator: claims C6 to C8 -/

/-- C6: starting from counter 0, the k-th call of GetNextId (k = 0, 1, 2, ...)
returns (k & mask) | base and leaves the globals as they were at the start
except for the counter, which becomes k + 1 (modulo 2^32, so exactly k + 1 as
long as that fits in 32 bits). -/
theorem GetNextId_kth_call (g : Globals) (hwf : g.WF) (h0 : g.GlobalId = 0) (k : Nat) :
    GetNextId (afterCalls k g)
        = ((k &&& g.GlobalIdMask) ||| g.GlobalIdBase, { g with GlobalId := (k + 1) % 2^32 })
      ∧ (afterCalls k g).GlobalId = k % 2^32
      ∧ (k + 1 < 2^32 → (GetNextId (afterCalls k g)).2.GlobalId = (afterCalls k g).GlobalId + 1) := by
  have hM : g.GlobalIdMask < 2^32 := hwf.2.2.1
  have h1 : GetNextId (afterCalls k g)
      = ((k &&& g.GlobalIdMask) ||| g.GlobalIdBase, { g with GlobalId := (k + 1) % 2^32 }) := by
    rw [afterCalls_eq g h0 k]
    simp only [GetNextId, and_mod32 hM]
    congr 2
    omega
  refine ⟨h1, by rw [afterCalls_eq g h0 k], fun hk => ?_⟩
  rw [h1, afterCalls_eq g h0 k]
  show (k + 1) % 2^32 = k % 2^32 + 1
  omega

/-- Witness for C6: with base 0x00400000 and mask 0x001FFFFF three successive
calls return 0x00400000, 0x00400001, 0x00400002. -/
theorem GetNextId_kth_call_witness :
    (typicalGlobals.WF ∧ typicalGlobals.GlobalId = 0) ∧
    (GetNextId (afterCalls 0 typicalGlobals)).1 = 0x00400000 ∧
    (GetNextId (afterCalls 1 typicalGlobals)).1 = 0x00400001 ∧
    (GetNextId (afterCalls 2 typicalGlobals)).1 = 0x00400002 ∧
    (GetNextId (afterCalls 2 typicalGlobals)).2 = { typicalGlobals with GlobalId := 3 } := by
  have h0 := (GetNextId_kth_call typicalGlobals (by decide) rfl 0).1
  have h1 := (GetNextId_kth_call typicalGlobals (by decide) rfl 1).1
  have h2 := (GetNextId_kth_call typicalGlobals (by decide) rfl 2).1
  rw [h0, h1, h2]
  decide

/-- C7, as stated, fails: a Success response may install base 1 and mask 1; the ID
GetNextId then returns is 1, and 1 & ~1 is 0, not the base. -/
theorem GetNextId_base_overlapping_mask :
    (X_InitiateConnection Globals.initial ⟨overlappingIdFrame, []⟩).1
      = .ok { SetupStatus := 0,
              globals := { Globals.initial with GlobalIdBase := 1, GlobalIdMask := 1 },
              dump := none } ∧
    (GetNextId { Globals.initial with GlobalIdBase := 1, GlobalIdMask := 1 }).1 = 1 ∧
    (GetNextId { Globals.initial with GlobalIdBase := 1, GlobalIdMask := 1 }).1 &&& not32 1 ≠ 1 := by
  refine ⟨?_, by decide, by decide⟩
  rw [X_InitiateConnection_success _ _ (by decide) (by decide), if_pos (by decide)]
  rfl

/-- C7, amended: for every base and mask and every counter value, the ID returned
by GetNextId satisfies (id & ~mask) == (base & ~mask); it satisfies
(id & ~mask) == base exactly when base and mask share no bit, so in particular
whenever base & mask == 0. -/
theorem GetNextId_outside_mask (g : Globals) (hwf : g.WF) :
    (GetNextId g).1 &&& not32 g.GlobalIdMask = g.GlobalIdBase &&& not32 g.GlobalIdMask ∧
    ((GetNextId g).1 &&& not32 g.GlobalIdMask = g.GlobalIdBase
      ↔ g.GlobalIdBase &&& g.GlobalIdMask = 0) := by
  have h : (GetNextId g).1 &&& not32 g.GlobalIdMask = g.GlobalIdBase &&& not32 g.GlobalIdMask :=
    id_and_not_mask g.GlobalId g.GlobalIdBase hwf.2.2.1
  refine ⟨h, ?_⟩
  rw [h]
  exact and_not_mask_eq_iff hwf.2.1 g.GlobalIdMask

/-- Witness for C7: base 0x00400000 and mask 0x001FFFFF share no bit. -/
theorem GetNextId_outside_mask_witness :
    typicalGlobals.WF ∧
    (GetNextId typicalGlobals).1 &&& not32 typicalGlobals.GlobalIdMask
      = typicalGlobals.GlobalIdBase :=
  ⟨by decide, (GetNextId_outside_mask typicalGlobals (by decide)).2.mpr (by decide)⟩

/-- C8, as stated, fails: with mask 5 (binary 101) the counters 1 < 2 <= 5 give the
IDs 1 and 0, which decrease, and the counters 0 < 2 give the same ID 0 twice. -/
theorem GetNextId_sparse_mask_not_increasing :
    (GetNextId { sparseMaskGlobals with GlobalId := 1 }).1 = 1 ∧
    (GetNextId { sparseMaskGlobals with GlobalId := 2 }).1 = 0 ∧
    (GetNextId { sparseMaskGlobals with GlobalId := 0 }).1 = 0 ∧
    ¬ ((GetNextId { sparseMaskGlobals with GlobalId := 1 }).1
        < (GetNextId { sparseMaskGlobals with GlobalId := 2 }).1) := by
  decide

/-- C8, amended: when the mask is a block of low-order bits (mask = 2^k - 1) and
the base shares no bit with it, any two calls made at counter values
i < j <= mask return IDs of which the second is strictly greater than, and so
different from, the first; for k <= 31 this also holds for the IDs read as the
signed int32_t the function returns. -/
theorem GetNextId_strictly_increasing (g : Globals) (k i j : Nat)
    (hM : g.GlobalIdMask = 2^k - 1) (hdisj : g.GlobalIdBase &&& g.GlobalIdMask = 0)
    (hij : i < j) (hj : j ≤ g.GlobalIdMask) :
    (GetNextId { g with GlobalId := i }).1 < (GetNextId { g with GlobalId := j }).1 ∧
    (GetNextId { g with GlobalId := i }).1 ≠ (GetNextId { g with GlobalId := j }).1 ∧
    (k ≤ 31 → toInt32 (GetNextId { g with GlobalId := i }).1
                < toInt32 (GetNextId { g with GlobalId := j }).1) := by
  obtain ⟨hi, hi'⟩ := id_eq_add hM hdisj (show i ≤ g.GlobalIdMask by omega)
  obtain ⟨hj1, hj'⟩ := id_eq_add hM hdisj hj
  have ei : (GetNextId { g with GlobalId := i }).1 = 2^k * (g.GlobalIdBase / 2^k) + i := hi
  have ej : (GetNextId { g with GlobalId := j }).1 = 2^k * (g.GlobalIdBase / 2^k) + j := hj1
  rw [ei, ej]
  refine ⟨by omega, by omega, fun hk => ?_⟩
  have hpow : (2:Nat)^k * 2^(31 - k) = 2147483648 := by
    rw [← Nat.pow_add, show k + (31 - k) = 31 by omega]
  generalize g.GlobalIdBase / 2^k = q at *
  generalize (2:Nat)^(31 - k) = R at *
  generalize (2:Nat)^k = P at *
  unfold toInt32
  by_cases ha : P * q + i < 2147483648
  · by_cases hb : P * q + j < 2147483648
    · rw [if_pos ha, if_pos hb]; omega
    · exfalso
      have hq : q < R := by
        by_contra h
        have h2 : P * R ≤ P * q := Nat.mul_le_mul_left P (Nat.le_of_not_lt h)
        omega
      have h3 : P * (q + 1) ≤ P * R := Nat.mul_le_mul_left P hq
      rw [Nat.mul_add, Nat.mul_one] at h3
      omega
  · have hb : ¬ P * q + j < 2147483648 := by omega
    rw [if_neg ha, if_neg hb]; omega

/-- Witness for C8: base 0x00400000, mask 0x001FFFFF = 2^21 - 1, counters 7 and 8. -/
theorem GetNextId_strictly_increasing_witness :
    (typicalGlobals.GlobalIdMask = 2^21 - 1 ∧
      typicalGlobals.GlobalIdBase &&& typicalGlobals.GlobalIdMask = 0) ∧
    (GetNextId { typicalGlobals with GlobalId := 7 }).1
      < (GetNextId { typicalGlobals with GlobalId := 8 }).1 :=
  ⟨by decide,
   (GetNextId_strictly_increasing typicalGlobals 21 7 8 (by decide) (by decide) (by decide)
      (by decide)).1⟩

/-! ## Request encoders: claims C9 and C10 -/

/-- C9: for x, y in the signed and width, height in the unsigned 16-bit range,
X_CreatWindow writes 40 bytes that decode little-endian, field by field, to the
values encoded: opcode 1 at offset 0, the newly allocated window ID (which is
also the return value) at offset 4, the root window at offset 8, x at 12, y at
14, width at 16, height at 18 and the root visual at offset 24. -/
theorem X_CreatWindow_round_trip (g : Globals) (s : Sock) (X Y Width Height : Int)
    (hwf : g.WF) (hX : -32768 ≤ X ∧ X < 32768) (hY : -32768 ≤ Y ∧ Y < 32768)
    (hW : 0 ≤ Width ∧ Width < 65536) (hH : 0 ≤ Height ∧ Height < 65536) :
    (X_CreatWindow g s X Y Width Height).2.2.outgoing
        = s.outgoing ++ sentBy s (X_CreatWindow g s X Y Width Height).2.2 ∧
    (sentBy s (X_CreatWindow g s X Y Width Height).2.2).length = 40 ∧
    (X_CreatWindow g s X Y Width Height).1 = (GetNextId g).1 ∧
    loadByte (sentBy s (X_CreatWindow g s X Y Width Height).2.2) 0 = .ok 1 ∧
    load32 (sentBy s (X_CreatWindow g s X Y Width Height).2.2) 4
        = .ok (X_CreatWindow g s X Y Width Height).1 ∧
    load32 (sentBy s (X_CreatWindow g s X Y Width Height).2.2) 8 = .ok g.GlobalRootWindow ∧
    (load16 (sentBy s (X_CreatWindow g s X Y Width Height).2.2) 12).map toInt16 = .ok X ∧
    (load16 (sentBy s (X_CreatWindow g s X Y Width Height).2.2) 14).map toInt16 = .ok Y ∧
    (load16 (sentBy s (X_CreatWindow g s X Y Width Height).2.2) 16).map Int.ofNat = .ok Width ∧
    (load16 (sentBy s (X_CreatWindow g s X Y Width Height).2.2) 18).map Int.ofNat = .ok Height ∧
    load32 (sentBy s (X_CreatWindow g s X Y Width Height).2.2) 24
        = .ok g.GlobalRootVisualId := by
  rw [X_CreatWindow_eq]
  dsimp only
  rw [sentBy_write]
  have hid := le32_decode (GetNextId g).1 (GetNextId_lt g hwf)
  have hroot := le32_decode g.GlobalRootWindow hwf.2.2.2.1
  have hvis := le32_decode g.GlobalRootVisualId hwf.2.2.2.2
  refine ⟨rfl, rfl, rfl, rfl, ?_, ?_, ?_, ?_, ?_, ?_, ?_⟩
  · exact congrArg Except.ok hid
  · exact congrArg Except.ok hroot
  · exact congrArg Except.ok (toInt16_wrap16 X hX)
  · exact congrArg Except.ok (toInt16_wrap16 Y hY)
  · exact congrArg Except.ok (u16_wrap16 Width hW)
  · exact congrArg Except.ok (u16_wrap16 Height hH)
  · exact congrArg Except.ok hvis

/-- Witness for C9: x = 10, y = 20, width = 600, height = 300. -/
theorem X_CreatWindow_round_trip_witness :
    typicalGlobals.WF ∧
    (load16 (sentBy ⟨[], []⟩ (X_CreatWindow typicalGlobals ⟨[], []⟩ 10 20 600 300).2.2) 12).map
        toInt16 = .ok 10 ∧
    (load16 (sentBy ⟨[], []⟩ (X_CreatWindow typicalGlobals ⟨[], []⟩ 10 20 600 300).2.2) 14).map
        toInt16 = .ok 20 ∧
    (load16 (sentBy ⟨[], []⟩ (X_CreatWindow typicalGlobals ⟨[], []⟩ 10 20 600 300).2.2) 16).map
        Int.ofNat = .ok 600 ∧
    (load16 (sentBy ⟨[], []⟩ (X_CreatWindow typicalGlobals ⟨[], []⟩ 10 20 600 300).2.2) 18).map
        Int.ofNat = .ok 300 ∧
    load32 (sentBy ⟨[], []⟩ (X_CreatWindow typicalGlobals ⟨[], []⟩ 10 20 600 300).2.2) 4
        = .ok 0x00400000 ∧
    load32 (sentBy ⟨[], []⟩ (X_CreatWindow typicalGlobals ⟨[], []⟩ 10 20 600 300).2.2) 8
        = .ok 0x07654321 ∧
    load32 (sentBy ⟨[], []⟩ (X_CreatWindow typicalGlobals ⟨[], []⟩ 10 20 600 300).2.2) 24
        = .ok 0x44332211 := by
  have h := X_CreatWindow_round_trip typicalGlobals ⟨[], []⟩ 10 20 600 300 (by decide)
    (by decide) (by decide) (by decide) (by decide)
  have hid : (X_CreatWindow typicalGlobals ⟨[], []⟩ 10 20 600 300).1 = 0x00400000 := by
    rw [h.2.2.1]; decide
  exact ⟨by decide, h.2.2.2.2.2.2.1, h.2.2.2.2.2.2.2.1, h.2.2.2.2.2.2.2.2.1,
    h.2.2.2.2.2.2.2.2.2.1, hid ▸ h.2.2.2.2.1, h.2.2.2.2.2.1, h.2.2.2.2.2.2.2.2.2.2⟩

/-- C10 at a failing input: given a 300-character text, WriteText does not fail; it
writes a 316-byte request whose text-length byte is 44, which is 300 truncated
to 8 bits, while its request-length field is 79 units and all 300 characters
follow the header. -/
theorem WriteText_truncates_long_text :
    WriteText ⟨[], []⟩ 1 2 10 20 (List.replicate 300 97) 300
      = .ok ⟨[], [76, 44, 79, 0, 1, 0, 0, 0, 2, 0, 0, 0, 10, 0, 20, 0]
                  ++ List.replicate 300 97⟩ ∧
    (300 : Int) % 256 = 44 := by
  refine ⟨?_, by decide⟩
  rw [WriteText_eq _ _ _ _ _ _ _ (by decide) (by decide)]
  have hw8 : wrap8 300 = 44 := rfl
  have hcl : wrap32 (4 + ((300 : Int) + PAD 300).tdiv 4) = 79 := rfl
  have hh : imageText8Header 44 79 (wrap32 1) (wrap32 2) (wrap16 10) (wrap16 20)
      = [76, 44, 79, 0, 1, 0, 0, 0, 2, 0, 0, 0, 10, 0, 20, 0] := rfl
  have hno : (0 : Nat) ∉ List.replicate 300 97 := by
    intro h
    have := List.eq_of_mem_replicate h
    omega
  have ht : List.take (300 : Int).toNat (List.replicate 300 97) = List.replicate 300 97 :=
    List.take_of_length_le (by rw [List.length_replicate]; decide)
  have hp : (300 : Int).toNat - (List.replicate 300 97).length = 0 := by
    rw [List.length_replicate]; rfl
  rw [takeWhile_nonzero _ hno, strlen_nonzero _ hno, hw8, hcl, hh, ht, hp,
    List.replicate_zero, List.append_nil]
  unfold firstBytes
  have hlen : ([76, 44, 79, 0, 1, 0, 0, 0, 2, 0, 0, 0, 10, 0, 20, 0]
      ++ List.replicate 300 97).length = 316 := by
    rw [List.length_append, List.length_replicate]; rfl
  rw [if_pos, show (((79 * 4 % 4294967296 : Nat) : Int)).toNat = 316 from rfl,
    List.take_left' hlen]
  · rfl
  · rw [List.length_append, hlen, List.length_replicate]
    decide

/-! ## Loads from a frame -/

theorem loadByte_of_lt (l : List Nat) (i : Nat) (z : Int) (hz : z = i) (h : i < l.length) :
    loadByte l z = .ok (byteAt l i) := by
  subst hz
  unfold loadByte byteAt
  rw [if_neg (by omega), Int.toNat_ofNat, List.getD_eq_getElem?_getD, List.getElem?_eq_getElem h]
  rfl

theorem loadByte_of_le (l : List Nat) (i : Nat) (z : Int) (hz : z = i) (h : l.length ≤ i) :
    loadByte l z = .error .outOfBounds := by
  subst hz
  unfold loadByte
  rw [if_neg (by omega), Int.toNat_ofNat, List.getElem?_eq_none h]

theorem load16_of_lt (l : List Nat) (i : Nat) (z : Int) (hz : z = i) (h : i + 1 < l.length) :
    load16 l z = .ok (u16At l i) := by
  unfold load16
  rw [loadByte_of_lt l i z hz (by omega),
    loadByte_of_lt l (i + 1) (z + 1) (by rw [hz]; push_cast; ring) h]
  rfl

theorem load16_of_le (l : List Nat) (i : Nat) (z : Int) (hz : z = i) (h : l.length ≤ i + 1) :
    load16 l z = .error .outOfBounds := by
  unfold load16
  by_cases h0 : i < l.length
  · rw [loadByte_of_lt l i z hz h0,
      loadByte_of_le l (i + 1) (z + 1) (by rw [hz]; push_cast; ring) h]
    rfl
  · rw [loadByte_of_le l i z hz (by omega)]
    rfl

theorem load32_of_lt (l : List Nat) (i : Nat) (z : Int) (hz : z = i) (h : i + 3 < l.length) :
    load32 l z = .ok (u32At l i) := by
  unfold load32
  rw [loadByte_of_lt l i z hz (by omega),
    loadByte_of_lt l (i + 1) (z + 1) (by rw [hz]; push_cast; ring) (by omega),
    loadByte_of_lt l (i + 2) (z + 2) (by rw [hz]; push_cast; ring) (by omega),
    loadByte_of_lt l (i + 3) (z + 3) (by rw [hz]; push_cast; ring) h]
  rfl

theorem u32At_take (l : List Nat) (n i : Nat) (h : i + 3 < n) :
    u32At (l.take n) i = u32At l i := by
  unfold u32At
  rw [byteAt_take _ _ _ (by omega), byteAt_take _ _ _ (by omega), byteAt_take _ _ _ (by omega),
    byteAt_take _ _ _ h]

theorem zeroPadded_length (l : List Nat) (size : Nat) : (zeroPadded l size).length = size := by
  unfold zeroPadded
  rw [List.length_append, List.length_replicate, List.length_take]
  omega

theorem byteAt_zeroPadded (l : List Nat) (size i : Nat) (h : i < size) :
    byteAt (zeroPadded l size) i = byteAt l i := by
  have := zeroPadded_getElem_opt l size i
  rw [if_pos h] at this
  conv_lhs => unfold byteAt
  rw [List.getD_eq_getElem?_getD, this]
  rfl

theorem u16At_zeroPadded (l : List Nat) (size i : Nat) (h : i + 1 < size) :
    u16At (zeroPadded l size) i = u16At l i := by
  unfold u16At
  rw [byteAt_zeroPadded _ _ _ (by omega), byteAt_zeroPadded _ _ _ h]

theorem u32At_zeroPadded (l : List Nat) (size i : Nat) (h : i + 3 < size) :
    u32At (zeroPadded l size) i = u32At l i := by
  unfold u32At
  rw [byteAt_zeroPadded _ _ _ (by omega), byteAt_zeroPadded _ _ _ (by omega),
    byteAt_zeroPadded _ _ _ (by omega), byteAt_zeroPadded _ _ _ h]

theorem reply_buffer (s : Sock) :
    (s.read (List.replicate 1024 0) 0 1024).1 = zeroPadded s.incoming 1024 := by
  have := read_padded s [] 1024 0 1024 rfl
  rw [List.nil_append, List.nil_append] at this
  exact this

/-! ## Name tables -/

theorem toInt8_range (b : Nat) (hb : b < 256) : -128 ≤ toInt8 b ∧ toInt8 b ≤ 127 := by
  unfold toInt8
  split <;> omega

theorem ltSizeT_toInt8 (b n : Nat) (hb : b < 256) (hn : n ≤ 128) :
    ltSizeT (toInt8 b) n = true ↔ b < n := by
  unfold ltSizeT toInt8
  rw [decide_eq_true_eq]
  split <;> omega

theorem tableEntry_of_lt (Names : List String) (b : Nat) (hb : b < 128) (h : b < Names.length) :
    tableEntry Names (toInt8 b) = .ok (Names.getD b "") := by
  unfold tableEntry toInt8
  rw [if_pos hb, if_neg (by omega), Int.toNat_ofNat, List.getD_eq_getElem?_getD,
    List.getElem?_eq_getElem h]
  rfl

/-! ## `PrintResponseError` and `PrintAndProcessEvent` on a frame -/

theorem PrintResponseError_eq (Data : List Nat) (hlen : 11 ≤ Data.length)
    (hb : byteAt Data 1 < 256) :
    PrintResponseError Data
      = .ok { ErrorCode := toInt8 (byteAt Data 1),
              ErrorName := if byteAt Data 1 < 18 then ErrorNames.getD (byteAt Data 1) ""
                           else "Unknown error",
              Minor := u16At Data 8, Major := byteAt Data 10 } := by
  unfold PrintResponseError
  rw [loadByte_of_lt Data 1 1 rfl (by omega), load16_of_lt Data 8 8 rfl (by omega),
    loadByte_of_lt Data 10 10 rfl (by omega)]
  simp only [bind, Except.bind]
  have hlenE : ErrorNames.length = 18 := rfl
  by_cases h : byteAt Data 1 < 18
  · rw [if_pos ((ltSizeT_toInt8 _ _ hb (by decide)).mpr (by rw [hlenE]; exact h)),
      tableEntry_of_lt _ _ (by omega) (by rw [hlenE]; exact h), if_pos h]
    rfl
  · rw [if_neg (fun e => h (by rw [← hlenE]; exact (ltSizeT_toInt8 _ _ hb (by decide)).mp e)),
      if_neg h]
    rfl

theorem PrintAndProcessEvent_expose (g : Globals) (Data : List Nat) (hlen : 18 ≤ Data.length)
    (h0 : byteAt Data 0 = 12) :
    PrintAndProcessEvent g Data
      = .ok (.expose { SequenceNumber := u16At Data 2, Window := u32At Data 4,
                       X := u16At Data 8, Y := u16At Data 10, Width := u16At Data 12,
                       Height := u16At Data 14, Count := u16At Data 16 }, g) := by
  unfold PrintAndProcessEvent
  rw [loadByte_of_lt Data 0 0 rfl (by omega), load16_of_lt Data 2 2 rfl (by omega),
    load32_of_lt Data 4 4 rfl (by omega), load16_of_lt Data 8 8 rfl (by omega),
    load16_of_lt Data 10 10 rfl (by omega), load16_of_lt Data 12 12 rfl (by omega),
    load16_of_lt Data 14 14 rfl (by omega), load16_of_lt Data 16 16 rfl (by omega), h0]
  rfl

theorem PrintAndProcessEvent_keyPress (g : Globals) (Data : List Nat)
    (hlen : 31 ≤ Data.length) (h0 : byteAt Data 0 = 2) :
    PrintAndProcessEvent g Data
      = .ok (.keyPress { KeyCode := toInt8 (byteAt Data 1),
                         Code := wrap8 (toInt8 (byteAt Data 1)),
                         SequenceNumber := u16At Data 2, TimeStamp := u32At Data 4,
                         RootWindow := u32At Data 8, EventWindow := u32At Data 12,
                         ChildWindow := u32At Data 16,
                         RootX := toInt16 (u16At Data 20), RootY := toInt16 (u16At Data 22),
                         EventX := toInt16 (u16At Data 24), EventY := toInt16 (u16At Data 26),
                         SetOfKeyButMask := toInt16 (u16At Data 28),
                         IsSameScreen := toInt8 (byteAt Data 30) },
             afterKey g (toInt8 (byteAt Data 1))) := by
  unfold PrintAndProcessEvent
  rw [loadByte_of_lt Data 0 0 rfl (by omega), loadByte_of_lt Data 1 1 rfl (by omega),
    load16_of_lt Data 2 2 rfl (by omega),
    load32_of_lt Data 4 4 rfl (by omega), load32_of_lt Data 8 8 rfl (by omega),
    load32_of_lt Data 12 12 rfl (by omega), load32_of_lt Data 16 16 rfl (by omega),
    load16_of_lt Data 20 20 rfl (by omega), load16_of_lt Data 22 22 rfl (by omega),
    load16_of_lt Data 24 24 rfl (by omega), load16_of_lt Data 26 26 rfl (by omega),
    load16_of_lt Data 28 28 rfl (by omega), loadByte_of_lt Data 30 30 rfl (by omega), h0]
  rfl

theorem PrintAndProcessEvent_other (g : Globals) (Data : List Nat) (hlen : 1 ≤ Data.length)
    (hb : byteAt Data 0 < 256) (h12 : byteAt Data 0 ≠ 12) (h2 : byteAt Data 0 ≠ 2) :
    PrintAndProcessEvent g Data
      = .ok (.other (if byteAt Data 0 < 35 then EventNames.getD (byteAt Data 0) ""
                     else " - Unknown Event Code -"), g) := by
  unfold PrintAndProcessEvent
  rw [loadByte_of_lt Data 0 0 rfl (by omega)]
  have e12 : toInt8 (byteAt Data 0) ≠ REPLY_EVENT_CODE_EXPOSE := by
    unfold toInt8 REPLY_EVENT_CODE_EXPOSE
    split <;> omega
  have e2 : toInt8 (byteAt Data 0) ≠ REPLY_EVENT_CODE_KEY_PRESS := by
    unfold toInt8 REPLY_EVENT_CODE_KEY_PRESS
    split <;> omega
  simp only [bind, Except.bind]
  rw [if_neg e12, if_neg e2]
  have hlenE : EventNames.length = 35 := rfl
  by_cases h : byteAt Data 0 < 35
  · rw [if_pos ((ltSizeT_toInt8 _ _ hb (by decide)).mpr (by rw [hlenE]; exact h)),
      tableEntry_of_lt _ _ (by omega) (by rw [hlenE]; exact h), if_pos h]
    rfl
  · rw [if_neg (fun e => h (by rw [← hlenE]; exact (ltSizeT_toInt8 _ _ hb (by decide)).mp e)),
      if_neg h]
    rfl

theorem GetAndProcessReply_eq (g : Globals) (s : Sock) :
    (GetAndProcessReply g s).1
      = if byteAt s.incoming 0 = 0 then
          (PrintResponseError (zeroPadded s.incoming 1024)).map (fun e => (.error e, g))
        else if byteAt s.incoming 0 = 1 then .ok (.unexpectedReply, g)
        else (PrintAndProcessEvent g (zeroPadded s.incoming 1024)).map
          (fun e => (.event e.1, e.2)) := by
  unfold GetAndProcessReply
  simp only []
  rw [reply_buffer, loadByte_of_lt _ 0 0 rfl (by rw [zeroPadded_length]; decide),
    byteAt_zeroPadded _ _ _ (by decide)]
  simp only [bind, Except.bind]
  by_cases h0 : byteAt s.incoming 0 = 0
  · rw [if_pos h0, if_pos h0]
    cases PrintResponseError (zeroPadded s.incoming 1024) <;> rfl
  · rw [if_neg h0, if_neg h0]
    by_cases h1 : byteAt s.incoming 0 = 1
    · rw [if_pos h1, if_pos h1]
      rfl
    · rw [if_neg h1, if_neg h1]
      cases PrintAndProcessEvent g (zeroPadded s.incoming 1024) <;> rfl

theorem byteAt_zeroPadded_lt (l : List Nat) (hb : ∀ b ∈ l, b < 256) (size i : Nat) :
    byteAt (zeroPadded l size) i < 256 := by
  by_cases h : i < size
  · rw [byteAt_zeroPadded l size i h]
    exact byteAt_lt l hb i
  · unfold byteAt
    rw [List.getD_eq_getElem?_getD, List.getElem?_eq_none (by rw [zeroPadded_length]; omega)]
    decide

theorem PrintAndProcessEvent_total (g : Globals) (Data : List Nat) (hlen : 31 ≤ Data.length)
    (hb : byteAt Data 0 < 256) : ∃ r, PrintAndProcessEvent g Data = .ok r := by
  by_cases h12 : byteAt Data 0 = 12
  · exact ⟨_, PrintAndProcessEvent_expose g Data (by omega) h12⟩
  · by_cases h2 : byteAt Data 0 = 2
    · exact ⟨_, PrintAndProcessEvent_keyPress g Data hlen h2⟩
    · exact ⟨_, PrintAndProcessEvent_other g Data (by omega) hb h12 h2⟩

theorem afterKey_ids (g : Globals) (k : Int) :
    (afterKey g k).GlobalId = g.GlobalId ∧ (afterKey g k).GlobalIdBase = g.GlobalIdBase ∧
    (afterKey g k).GlobalIdMask = g.GlobalIdMask ∧
    (afterKey g k).GlobalRootWindow = g.GlobalRootWindow ∧
    (afterKey g k).GlobalRootVisualId = g.GlobalRootVisualId := by
  unfold afterKey
  simp only []
  split <;> split <;> split <;> split <;> exact ⟨rfl, rfl, rfl, rfl, rfl⟩

theorem afterKey_offsets (g : Globals) (b : Nat) (hb : b < 256) :
    (b = 25 → afterKey g (toInt8 b)
        = { g with GlobalTextOffsetY := addInt32 g.GlobalTextOffsetY 10 }) ∧
    (b = 39 → afterKey g (toInt8 b)
        = { g with GlobalTextOffsetY := subInt32 g.GlobalTextOffsetY 10 }) ∧
    (b = 38 → afterKey g (toInt8 b)
        = { g with GlobalTextOffsetX := subInt32 g.GlobalTextOffsetX 10 }) ∧
    (b = 40 → afterKey g (toInt8 b)
        = { g with GlobalTextOffsetX := addInt32 g.GlobalTextOffsetX 10 }) ∧
    (b ≠ 25 → b ≠ 39 → b ≠ 38 → b ≠ 40 → afterKey g (toInt8 b) = g) := by
  refine ⟨?_, ?_, ?_, ?_, ?_⟩
  · intro h; subst h; rfl
  · intro h; subst h; rfl
  · intro h; subst h; rfl
  · intro h; subst h; rfl
  · intro h25 h39 h38 h40
    have e25 : toInt8 b ≠ 25 := by unfold toInt8; split <;> omega
    have e39 : toInt8 b ≠ 39 := by unfold toInt8; split <;> omega
    have e38 : toInt8 b ≠ 38 := by unfold toInt8; split <;> omega
    have e40 : toInt8 b ≠ 40 := by unfold toInt8; split <;> omega
    unfold afterKey
    simp only [e25, e39, e38, e40, ↓reduceIte]

/-! ## Padding: claim C13 -/

/-- C13: for every n >= 0, PAD(n) equals (4 - n % 4) % 4, lies in 0..3, makes
n + PAD(n) a multiple of 4, and is the least filler that does so. -/
theorem PAD_least_filler (N : Int) (h : 0 ≤ N) :
    PAD N = (4 - N % 4) % 4 ∧ (PAD N = (pad N.toNat : Nat)) ∧ 0 ≤ PAD N ∧ PAD N ≤ 3 ∧
    (N + PAD N) % 4 = 0 ∧ ∀ m : Int, 0 ≤ m → (N + m) % 4 = 0 → PAD N ≤ m := by
  have h1 : N.tmod 4 = N % 4 := Int.tmod_eq_emod h (by decide)
  have h2 : (4 - N % 4).tmod 4 = (4 - N % 4) % 4 := Int.tmod_eq_emod (by omega) (by decide)
  have e : PAD N = (4 - N % 4) % 4 := by
    unfold PAD
    rw [h1, h2]
  refine ⟨e, ?_, ?_, ?_, ?_, ?_⟩
  · rw [e]
    unfold pad
    omega
  · rw [e]; omega
  · rw [e]; omega
  · rw [e]; omega
  · intro m hm hdiv
    rw [e]
    omega

/-- Witness for C13: PAD of 0, 1, 3, 4, 5, 255, 256 is 0, 3, 1, 0, 3, 1, 0. -/
theorem PAD_least_filler_witness :
    (0 : Int) ≤ 255 ∧
    PAD 0 = 0 ∧ PAD 1 = 3 ∧ PAD 3 = 1 ∧ PAD 4 = 0 ∧ PAD 5 = 3 ∧ PAD 255 = 1 ∧ PAD 256 = 0 :=
  ⟨by decide,
   (PAD_least_filler 0 (by decide)).1.trans (by decide),
   (PAD_least_filler 1 (by decide)).1.trans (by decide),
   (PAD_least_filler 3 (by decide)).1.trans (by decide),
   (PAD_least_filler 4 (by decide)).1.trans (by decide),
   (PAD_least_filler 5 (by decide)).1.trans (by decide),
   (PAD_least_filler 255 (by decide)).1.trans (by decide),
   (PAD_least_filler 256 (by decide)).1.trans (by decide)⟩

/-! ## Replies, errors and events: claims C14 to C20 -/

/-- C14 at a failing input: for an error frame with error code 200 the name
PrintResponseError chooses is its default string, spelled with a lower-case e,
which is not the string spelled with a capital E that the table holds for code 0
(and that the claim names); code 3 gives the table entry for Window. -/
theorem PrintResponseError_unknown_code_name :
    PrintResponseError windowErrorFrame
      = .ok { ErrorCode := 3, ErrorName := "Window", Minor := 0, Major := 8 } ∧
    PrintResponseError unknownErrorFrame
      = .ok { ErrorCode := -56, ErrorName := "Unknown error", Minor := 0, Major := 8 } ∧
    ErrorNames.getD 0 "" = "Unknown Error" ∧
    "Unknown error" ≠ "Unknown Error" := by
  decide

/-- C16: for every frame of at least 32 bytes with leading byte 12,
PrintAndProcessEvent takes the Expose branch and decodes window as the
little-endian u32 at offset 4 and x, y, width, height, count as the little-endian
u16 at offsets 8, 10, 12, 14, 16 (and the sequence number as the u16 at 2),
leaving the globals unchanged. -/
theorem PrintAndProcessEvent_expose_fields (g : Globals) (Data : List Nat)
    (hlen : 32 ≤ Data.length) (h0 : byteAt Data 0 = 12) :
    PrintAndProcessEvent g Data
      = .ok (.expose { SequenceNumber := u16At Data 2, Window := u32At Data 4,
                       X := u16At Data 8, Y := u16At Data 10, Width := u16At Data 12,
                       Height := u16At Data 14, Count := u16At Data 16 }, g) :=
  PrintAndProcessEvent_expose g Data (by omega) h0

/-- Witness for C16: an Expose frame with window 0x00400000, x 1, y 2, width 600,
height 300, count 3. -/
theorem PrintAndProcessEvent_expose_fields_witness :
    (32 ≤ exposeFrame.length ∧ byteAt exposeFrame 0 = 12) ∧
    PrintAndProcessEvent typicalGlobals exposeFrame
      = .ok (.expose { SequenceNumber := 7, Window := 0x00400000, X := 1, Y := 2,
                       Width := 600, Height := 300, Count := 3 }, typicalGlobals) :=
  ⟨by decide,
   PrintAndProcessEvent_expose_fields typicalGlobals exposeFrame (by decide) (by decide)⟩

/-- C17: GetAndProcessReply classifies the frame it reads by its first byte b:
b = 0 is handled as an Error, b = 1 as an unexpected Reply, and every b >= 2 as an
Event; among events exactly b = 2 is decoded as KeyPress and exactly b = 12 as
Expose. -/
theorem GetAndProcessReply_classification (g : Globals) (s : Sock)
    (hb : ∀ b ∈ s.incoming, b < 256) :
    (byteAt s.incoming 0 = 0 →
      ∃ r, (GetAndProcessReply g s).1 = .ok (.error r, g)) ∧
    (byteAt s.incoming 0 = 1 → (GetAndProcessReply g s).1 = .ok (.unexpectedReply, g)) ∧
    (2 ≤ byteAt s.incoming 0 →
      ∃ e g', (GetAndProcessReply g s).1 = .ok (.event e, g') ∧
        ((∃ k, e = .keyPress k) ↔ byteAt s.incoming 0 = 2) ∧
        ((∃ x, e = .expose x) ↔ byteAt s.incoming 0 = 12)) := by
  have hlen : (zeroPadded s.incoming 1024).length = 1024 := zeroPadded_length _ _
  have hb0 : byteAt (zeroPadded s.incoming 1024) 0 = byteAt s.incoming 0 :=
    byteAt_zeroPadded _ _ _ (by decide)
  refine ⟨fun h0 => ?_, fun h1 => ?_, fun h2 => ?_⟩
  · rw [GetAndProcessReply_eq, if_pos h0,
      PrintResponseError_eq _ (by omega) (byteAt_zeroPadded_lt _ hb _ _)]
    exact ⟨_, rfl⟩
  · rw [GetAndProcessReply_eq, if_neg (by omega), if_pos h1]
  · rw [GetAndProcessReply_eq, if_neg (by omega), if_neg (by omega)]
    by_cases h12 : byteAt s.incoming 0 = 12
    · rw [PrintAndProcessEvent_expose g _ (by omega) (hb0.trans h12)]
      refine ⟨_, _, rfl, ⟨fun ⟨k, hk⟩ => (by cases hk), fun h => (by omega)⟩,
        ⟨fun _ => h12, fun _ => ⟨_, rfl⟩⟩⟩
    · by_cases hk : byteAt s.incoming 0 = 2
      · rw [PrintAndProcessEvent_keyPress g _ (by omega) (hb0.trans hk)]
        refine ⟨_, _, rfl, ⟨fun _ => hk, fun _ => ⟨_, rfl⟩⟩,
          ⟨fun ⟨x, hx⟩ => (by cases hx), fun h => (by omega)⟩⟩
      · rw [PrintAndProcessEvent_other g _ (by omega) (byteAt_zeroPadded_lt _ hb _ _)
          (by rw [hb0]; exact h12) (by rw [hb0]; exact hk)]
        refine ⟨_, _, rfl, ⟨fun ⟨k, hk'⟩ => (by cases hk'), fun h => absurd h hk⟩,
          ⟨fun ⟨x, hx⟩ => (by cases hx), fun h => absurd h h12⟩⟩

/-- Witness for C17: the sample KeyPress frame, first byte 2, read from the socket. -/
theorem GetAndProcessReply_classification_witness :
    2 ≤ byteAt keyPressFrame 0 ∧
    ∃ e g', (GetAndProcessReply Globals.initial ⟨keyPressFrame, []⟩).1 = .ok (.event e, g') ∧
      ((∃ k, e = .keyPress k) ↔ byteAt keyPressFrame 0 = 2) ∧
      ((∃ x, e = .expose x) ↔ byteAt keyPressFrame 0 = 12) :=
  ⟨by decide,
   (GetAndProcessReply_classification Globals.initial ⟨keyPressFrame, []⟩ (by decide)).2.2
      (by decide)⟩

theorem take_length_of_le (Data : List Nat) (k : Nat) (hk : k ≤ Data.length) :
    (Data.take k).length = k := by
  rw [List.length_take]
  omega

theorem byteAt_take_lt (Data : List Nat) (hb : ∀ b ∈ Data, b < 256) (k i : Nat) :
    byteAt (Data.take k) i < 256 :=
  byteAt_lt _ (fun b hmem => hb b (List.mem_of_mem_take hmem)) i

theorem PrintResponseError_take (Data : List Nat) (k : Nat) (hk : 11 ≤ k)
    (hlen : k ≤ Data.length) (hb : ∀ b ∈ Data, b < 256) :
    PrintResponseError (Data.take k) = PrintResponseError Data := by
  rw [PrintResponseError_eq Data (by omega) (byteAt_lt Data hb 1),
    PrintResponseError_eq (Data.take k) (by rw [take_length_of_le Data k hlen]; exact hk)
      (byteAt_take_lt Data hb k 1),
    byteAt_take _ _ 1 (by omega), byteAt_take _ _ 10 (by omega), u16At_take _ _ 8 (by omega)]

theorem PrintAndProcessEvent_take (g : Globals) (Data : List Nat) (k : Nat) (hk : 1 ≤ k)
    (hlen : k ≤ Data.length) (hb : ∀ b ∈ Data, b < 256)
    (h12 : byteAt Data 0 = 12 → 18 ≤ k) (h2 : byteAt Data 0 = 2 → 31 ≤ k) :
    PrintAndProcessEvent g (Data.take k) = PrintAndProcessEvent g Data := by
  have tl := take_length_of_le Data k hlen
  by_cases e12 : byteAt Data 0 = 12
  · have hk12 := h12 e12
    rw [PrintAndProcessEvent_expose g Data (by omega) e12,
      PrintAndProcessEvent_expose g (Data.take k) (by rw [tl]; exact hk12)
        (by rw [byteAt_take _ _ _ (by omega)]; exact e12),
      u16At_take _ _ _ (by omega), u32At_take _ _ _ (by omega), u16At_take _ _ _ (by omega),
      u16At_take _ _ _ (by omega), u16At_take _ _ _ (by omega), u16At_take _ _ _ (by omega),
      u16At_take _ _ _ (by omega)]
  · by_cases e2 : byteAt Data 0 = 2
    · have hk2 := h2 e2
      rw [PrintAndProcessEvent_keyPress g Data (by omega) e2,
        PrintAndProcessEvent_keyPress g (Data.take k) (by rw [tl]; exact hk2)
          (by rw [byteAt_take _ _ _ (by omega)]; exact e2),
        byteAt_take _ _ 1 (by omega), byteAt_take _ _ 30 (by omega),
        u16At_take _ _ 2 (by omega), u32At_take _ _ 4 (by omega), u32At_take _ _ 8 (by omega),
        u32At_take _ _ 12 (by omega), u32At_take _ _ 16 (by omega),
        u16At_take _ _ 20 (by omega), u16At_take _ _ 22 (by omega),
        u16At_take _ _ 24 (by omega), u16At_take _ _ 26 (by omega),
        u16At_take _ _ 28 (by omega)]
    · rw [PrintAndProcessEvent_other g Data (by omega) (byteAt_lt Data hb 0) e12 e2,
        PrintAndProcessEvent_other g (Data.take k) (by rw [tl]; exact hk)
          (byteAt_take_lt Data hb k 0)
          (by rw [byteAt_take _ _ _ (by omega)]; exact e12)
          (by rw [byteAt_take _ _ _ (by omega)]; exact e2),
        byteAt_take _ _ 0 (by omega)]

theorem mem_zeroPadded_lt (l : List Nat) (hb : ∀ b ∈ l, b < 256) (size : Nat) :
    ∀ b ∈ zeroPadded l size, b < 256 := by
  intro b hmem
  unfold zeroPadded at hmem
  rcases List.mem_append.mp hmem with h | h
  · exact hb b (List.mem_of_mem_take h)
  · rw [List.eq_of_mem_replicate h]
    decide

theorem zeroPadded_take_prefix (l : List Nat) :
    (zeroPadded (l.take 32) 1024).take 32 = (zeroPadded l 1024).take 32 := by
  apply List.ext_getElem?
  intro i
  rw [List.getElem?_take, List.getElem?_take, zeroPadded_getElem_opt, zeroPadded_getElem_opt]
  by_cases h : i < 32
  · rw [if_pos h, if_pos h, if_pos (by omega), if_pos (by omega), byteAt_take _ _ _ h]
  · rw [if_neg h, if_neg h]

theorem GetAndProcessReply_first_32 (g : Globals) (s : Sock)
    (hb : ∀ b ∈ s.incoming, b < 256) :
    (GetAndProcessReply g ⟨s.incoming.take 32, s.outgoing⟩).1 = (GetAndProcessReply g s).1 := by
  have hb' : ∀ b ∈ s.incoming.take 32, b < 256 := fun b h => hb b (List.mem_of_mem_take h)
  have hB := mem_zeroPadded_lt s.incoming hb 1024
  have hB' := mem_zeroPadded_lt (s.incoming.take 32) hb' 1024
  have hl : (zeroPadded s.incoming 1024).length = 1024 := zeroPadded_length _ _
  have hl' : (zeroPadded (s.incoming.take 32) 1024).length = 1024 := zeroPadded_length _ _
  have e1 : PrintResponseError (zeroPadded (s.incoming.take 32) 1024)
      = PrintResponseError (zeroPadded s.incoming 1024) := by
    rw [← PrintResponseError_take _ 32 (by omega) (by omega) hB,
      ← PrintResponseError_take _ 32 (by omega) (by omega) hB', zeroPadded_take_prefix]
  have e2 : PrintAndProcessEvent g (zeroPadded (s.incoming.take 32) 1024)
      = PrintAndProcessEvent g (zeroPadded s.incoming 1024) := by
    rw [← PrintAndProcessEvent_take g _ 32 (by omega) (by omega) hB (fun _ => by omega)
        (fun _ => by omega),
      ← PrintAndProcessEvent_take g (zeroPadded (s.incoming.take 32) 1024) 32 (by omega)
        (by omega) hB' (fun _ => by omega) (fun _ => by omega),
      zeroPadded_take_prefix]
  rw [GetAndProcessReply_eq, GetAndProcessReply_eq]
  dsimp only
  rw [e1, e2, byteAt_take _ _ 0 (by omega)]

/-- C18: for every frame of at least 32 bytes, decoding succeeds and reads only
offsets 0..31.  PrintResponseError gives the same result on the first 11 bytes
alone and runs out of bounds on the first 10, so offset 10 is the highest it
reads; for an Expose frame PrintAndProcessEvent gives the same result on the
first 18 bytes and faults on 17 (highest offset 17), for a KeyPress frame on the
first 31 and faults on 30 (highest offset 30), and for any other event it reads
byte 0 only; GetAndProcessReply gives the same outcome when only the first 32
bytes are delivered. -/
theorem decoding_stays_inside_frame (g : Globals) (Data : List Nat)
    (hlen : 32 ≤ Data.length) (hb : ∀ b ∈ Data, b < 256) :
    ((∃ r, PrintResponseError Data = .ok r) ∧
      PrintResponseError (Data.take 11) = PrintResponseError Data ∧
      PrintResponseError (Data.take 10) = .error .outOfBounds) ∧
    ((∃ r, PrintAndProcessEvent g Data = .ok r) ∧
      PrintAndProcessEvent g (Data.take 32) = PrintAndProcessEvent g Data) ∧
    (byteAt Data 0 = 12 →
      PrintAndProcessEvent g (Data.take 18) = PrintAndProcessEvent g Data ∧
      PrintAndProcessEvent g (Data.take 17) = .error .outOfBounds) ∧
    (byteAt Data 0 = 2 →
      PrintAndProcessEvent g (Data.take 31) = PrintAndProcessEvent g Data ∧
      PrintAndProcessEvent g (Data.take 30) = .error .outOfBounds) ∧
    (byteAt Data 0 ≠ 12 → byteAt Data 0 ≠ 2 →
      PrintAndProcessEvent g (Data.take 1) = PrintAndProcessEvent g Data) ∧
    (∀ out : List Nat, (∃ r, (GetAndProcessReply g ⟨Data, out⟩).1 = .ok r) ∧
      (GetAndProcessReply g ⟨Data.take 32, out⟩).1 = (GetAndProcessReply g ⟨Data, out⟩).1) := by
  have tl : ∀ k, k ≤ 32 → (Data.take k).length = k := fun k hk =>
    take_length_of_le Data k (by omega)
  refine ⟨⟨⟨_, PrintResponseError_eq Data (by omega) (byteAt_lt Data hb 1)⟩,
      PrintResponseError_take Data 11 (by omega) (by omega) hb, ?_⟩,
    ⟨PrintAndProcessEvent_total g Data (by omega) (byteAt_lt Data hb 0),
      PrintAndProcessEvent_take g Data 32 (by omega) hlen hb (fun _ => by omega)
        (fun _ => by omega)⟩,
    fun h0 => ⟨PrintAndProcessEvent_take g Data 18 (by omega) (by omega) hb
        (fun _ => by omega) (fun h => by omega), ?_⟩,
    fun h0 => ⟨PrintAndProcessEvent_take g Data 31 (by omega) (by omega) hb
        (fun h => by omega) (fun _ => by omega), ?_⟩,
    fun h12 h2 => PrintAndProcessEvent_take g Data 1 (by omega) (by omega) hb
        (fun h => absurd h h12) (fun h => absurd h h2),
    fun out => ⟨?_, GetAndProcessReply_first_32 g ⟨Data, out⟩ hb⟩⟩
  · unfold PrintResponseError
    rw [loadByte_of_lt _ 1 1 rfl (by rw [tl 10 (by omega)]; omega),
      load16_of_lt _ 8 8 rfl (by rw [tl 10 (by omega)]; omega),
      loadByte_of_le _ 10 10 rfl (by rw [tl 10 (by omega)])]
    simp only [bind, Except.bind]
    split
    · cases tableEntry ErrorNames (toInt8 (byteAt (List.take 10 Data) 1)) with
      | error f => cases f; rfl
      | ok v => rfl
    · rfl
  · unfold PrintAndProcessEvent
    rw [loadByte_of_lt _ 0 0 rfl (by rw [tl 17 (by omega)]; omega),
      load16_of_lt _ 2 2 rfl (by rw [tl 17 (by omega)]; omega),
      load32_of_lt _ 4 4 rfl (by rw [tl 17 (by omega)]; omega),
      load16_of_lt _ 8 8 rfl (by rw [tl 17 (by omega)]; omega),
      load16_of_lt _ 10 10 rfl (by rw [tl 17 (by omega)]; omega),
      load16_of_lt _ 12 12 rfl (by rw [tl 17 (by omega)]; omega),
      load16_of_lt _ 14 14 rfl (by rw [tl 17 (by omega)]; omega),
      load16_of_le _ 16 16 rfl (by rw [tl 17 (by omega)]),
      byteAt_take _ _ 0 (by omega), h0]
    rfl
  · unfold PrintAndProcessEvent
    rw [loadByte_of_lt _ 0 0 rfl (by rw [tl 30 (by omega)]; omega),
      loadByte_of_lt _ 1 1 rfl (by rw [tl 30 (by omega)]; omega),
      load16_of_lt _ 2 2 rfl (by rw [tl 30 (by omega)]; omega),
      load32_of_lt _ 4 4 rfl (by rw [tl 30 (by omega)]; omega),
      load32_of_lt _ 8 8 rfl (by rw [tl 30 (by omega)]; omega),
      load32_of_lt _ 12 12 rfl (by rw [tl 30 (by omega)]; omega),
      load32_of_lt _ 16 16 rfl (by rw [tl 30 (by omega)]; omega),
      load16_of_lt _ 20 20 rfl (by rw [tl 30 (by omega)]; omega),
      load16_of_lt _ 22 22 rfl (by rw [tl 30 (by omega)]; omega),
      load16_of_lt _ 24 24 rfl (by rw [tl 30 (by omega)]; omega),
      load16_of_lt _ 26 26 rfl (by rw [tl 30 (by omega)]; omega),
      load16_of_lt _ 28 28 rfl (by rw [tl 30 (by omega)]; omega),
      loadByte_of_le _ 30 30 rfl (by rw [tl 30 (by omega)]),
      byteAt_take _ _ 0 (by omega), h0]
    rfl
  · have hl : (zeroPadded Data 1024).length = 1024 := zeroPadded_length _ _
    have hB := mem_zeroPadded_lt Data hb 1024
    rw [GetAndProcessReply_eq]
    dsimp only
    by_cases h0 : byteAt Data 0 = 0
    · rw [if_pos h0, PrintResponseError_eq _ (by omega) (byteAt_lt _ hB 1)]
      exact ⟨_, rfl⟩
    · rw [if_neg h0]
      by_cases h1 : byteAt Data 0 = 1
      · rw [if_pos h1]
        exact ⟨_, rfl⟩
      · rw [if_neg h1]
        obtain ⟨r, hr⟩ := PrintAndProcessEvent_total g (zeroPadded Data 1024) (by omega)
          (byteAt_lt _ hB 0)
        rw [hr]
        exact ⟨_, rfl⟩

/-- Witness for C18: the sample KeyPress frame decodes from its first 31 bytes and
faults on its first 30. -/
theorem decoding_stays_inside_frame_witness :
    (32 ≤ keyPressFrame.length ∧ byteAt keyPressFrame 0 = 2) ∧
    PrintAndProcessEvent Globals.initial (keyPressFrame.take 31)
      = PrintAndProcessEvent Globals.initial keyPressFrame ∧
    PrintAndProcessEvent Globals.initial (keyPressFrame.take 30) = .error .outOfBounds :=
  ⟨by decide,
   (decoding_stays_inside_frame Globals.initial keyPressFrame (by decide) (by decide)).2.2.2.1
      (by decide)⟩

/-- C19: for every value 0..255 of the code byte, held in a signed char, the guard
of the error-name lookup passes exactly for the bytes below 18 and the guard of
the event-name lookup exactly for the bytes below 35; a byte that passes indexes
inside the table, every other byte would index outside it, and so neither
PrintResponseError nor PrintAndProcessEvent ever indexes a table out of range. -/
theorem name_lookups_stay_in_table (b : Nat) (hb : b < 256) :
    (ltSizeT (toInt8 b) ErrorNames.length = true ↔ b < 18) ∧
    (ltSizeT (toInt8 b) EventNames.length = true ↔ b < 35) ∧
    (b < 18 → tableEntry ErrorNames (toInt8 b) = .ok (ErrorNames.getD b "")) ∧
    (¬ b < 18 → tableEntry ErrorNames (toInt8 b) = .error .outOfBounds) ∧
    (b < 35 → tableEntry EventNames (toInt8 b) = .ok (EventNames.getD b "")) ∧
    (¬ b < 35 → tableEntry EventNames (toInt8 b) = .error .outOfBounds) ∧
    (∀ Data : List Nat, 32 ≤ Data.length → byteAt Data 1 = b →
      ∃ r, PrintResponseError Data = .ok r) ∧
    (∀ (g : Globals) (Data : List Nat), 32 ≤ Data.length → byteAt Data 0 = b →
      ∃ r, PrintAndProcessEvent g Data = .ok r) := by
  have hE : ErrorNames.length = 18 := rfl
  have hV : EventNames.length = 35 := rfl
  have oob : ∀ (Names : List String), Names.length ≤ 128 → ¬ b < Names.length →
      tableEntry Names (toInt8 b) = .error .outOfBounds := by
    intro Names hn hlt
    unfold tableEntry toInt8
    by_cases h128 : b < 128
    · rw [if_pos h128, if_neg (by omega), Int.toNat_ofNat,
        List.getElem?_eq_none (by omega)]
    · rw [if_neg h128, if_pos (by omega)]
  refine ⟨?_, ?_, ?_, ?_, ?_, ?_, ?_, ?_⟩
  · rw [hE]; exact ltSizeT_toInt8 b 18 hb (by decide)
  · rw [hV]; exact ltSizeT_toInt8 b 35 hb (by decide)
  · intro h
    exact tableEntry_of_lt ErrorNames b (by omega) (by rw [hE]; exact h)
  · intro h
    exact oob ErrorNames (by decide) (by rw [hE]; exact h)
  · intro h
    exact tableEntry_of_lt EventNames b (by omega) (by rw [hV]; exact h)
  · intro h
    exact oob EventNames (by decide) (by rw [hV]; exact h)
  · intro Data hlen h1
    exact ⟨_, PrintResponseError_eq Data (by omega) (by rw [h1]; exact hb)⟩
  · intro g Data hlen h0
    exact PrintAndProcessEvent_total g Data (by omega) (by rw [h0]; exact hb)

/-- Witness for C19: the byte 200, which a signed char holds as -56, passes neither
guard, and the error frame carrying it is decoded without a fault. -/
theorem name_lookups_stay_in_table_witness :
    (200 < 256 ∧ toInt8 200 = -56) ∧
    ltSizeT (toInt8 200) ErrorNames.length = false ∧
    ltSizeT (toInt8 200) EventNames.length = false ∧
    ∃ r, PrintResponseError unknownErrorFrame = .ok r := by
  have h := name_lookups_stay_in_table 200 (by decide)
  refine ⟨by decide, ?_, ?_, h.2.2.2.2.2.2.1 unknownErrorFrame (by decide) (by decide)⟩
  · cases hc : ltSizeT (toInt8 200) ErrorNames.length with
    | false => rfl
    | true => exact absurd (h.1.mp hc) (by decide)
  · cases hc : ltSizeT (toInt8 200) EventNames.length with
    | false => rfl
    | true => exact absurd (h.2.1.mp hc) (by decide)

/-- C20: processing an inbound frame never changes the resource-ID counter, base,
mask, root window or root visual, and changes a text offset only for a KeyPress
(leading byte 2) whose key code is 25, 39, 38 or 40: 25 adds 10 to the Y offset,
39 subtracts 10 from it, 38 subtracts 10 from the X offset, 40 adds 10 to it
(int32_t arithmetic: exactly plus or minus 10 whenever the result is in range),
each leaving the other offset unchanged; every other frame leaves both unchanged. -/
theorem GetAndProcessReply_text_offsets (g : Globals) (s : Sock)
    (hb : ∀ b ∈ s.incoming, b < 256) :
    ∃ out g', (GetAndProcessReply g s).1 = .ok (out, g') ∧
      (g'.GlobalId = g.GlobalId ∧ g'.GlobalIdBase = g.GlobalIdBase ∧
        g'.GlobalIdMask = g.GlobalIdMask ∧ g'.GlobalRootWindow = g.GlobalRootWindow ∧
        g'.GlobalRootVisualId = g.GlobalRootVisualId) ∧
      (byteAt s.incoming 0 = 2 → byteAt s.incoming 1 = 25 →
        g' = { g with GlobalTextOffsetY := addInt32 g.GlobalTextOffsetY 10 }) ∧
      (byteAt s.incoming 0 = 2 → byteAt s.incoming 1 = 39 →
        g' = { g with GlobalTextOffsetY := subInt32 g.GlobalTextOffsetY 10 }) ∧
      (byteAt s.incoming 0 = 2 → byteAt s.incoming 1 = 38 →
        g' = { g with GlobalTextOffsetX := subInt32 g.GlobalTextOffsetX 10 }) ∧
      (byteAt s.incoming 0 = 2 → byteAt s.incoming 1 = 40 →
        g' = { g with GlobalTextOffsetX := addInt32 g.GlobalTextOffsetX 10 }) ∧
      (¬ (byteAt s.incoming 0 = 2 ∧
          (byteAt s.incoming 1 = 25 ∨ byteAt s.incoming 1 = 39 ∨ byteAt s.incoming 1 = 38 ∨
            byteAt s.incoming 1 = 40)) → g' = g) ∧
      (∀ v : Int, -2147483648 ≤ v + 10 → v + 10 ≤ 2147483647 → addInt32 v 10 = v + 10) ∧
      (∀ v : Int, -2147483648 ≤ v - 10 → v - 10 ≤ 2147483647 → subInt32 v 10 = v - 10) := by
  have hlen : (zeroPadded s.incoming 1024).length = 1024 := zeroPadded_length _ _
  have hb0 : byteAt (zeroPadded s.incoming 1024) 0 = byteAt s.incoming 0 :=
    byteAt_zeroPadded _ _ _ (by decide)
  have hb1 : byteAt (zeroPadded s.incoming 1024) 1 = byteAt s.incoming 1 :=
    byteAt_zeroPadded _ _ _ (by decide)
  have hadd : ∀ v : Int, -2147483648 ≤ v + 10 → v + 10 ≤ 2147483647 →
      addInt32 v 10 = v + 10 := by
    intro v h1 h2
    unfold addInt32 toInt32 wrap32
    split <;> omega
  have hsub : ∀ v : Int, -2147483648 ≤ v - 10 → v - 10 ≤ 2147483647 →
      subInt32 v 10 = v - 10 := by
    intro v h1 h2
    unfold subInt32 toInt32 wrap32
    split <;> omega
  have same : ∀ out, (GetAndProcessReply g s).1 = .ok (out, g) →
      ¬ byteAt s.incoming 0 = 2 → _ := fun out h hne =>
    (⟨out, g, h, ⟨rfl, rfl, rfl, rfl, rfl⟩, fun h2 => absurd h2 hne, fun h2 => absurd h2 hne,
      fun h2 => absurd h2 hne, fun h2 => absurd h2 hne, fun _ => rfl, hadd, hsub⟩ :
      ∃ out g', (GetAndProcessReply g s).1 = .ok (out, g') ∧
      (g'.GlobalId = g.GlobalId ∧ g'.GlobalIdBase = g.GlobalIdBase ∧
        g'.GlobalIdMask = g.GlobalIdMask ∧ g'.GlobalRootWindow = g.GlobalRootWindow ∧
        g'.GlobalRootVisualId = g.GlobalRootVisualId) ∧
      (byteAt s.incoming 0 = 2 → byteAt s.incoming 1 = 25 →
        g' = { g with GlobalTextOffsetY := addInt32 g.GlobalTextOffsetY 10 }) ∧
      (byteAt s.incoming 0 = 2 → byteAt s.incoming 1 = 39 →
        g' = { g with GlobalTextOffsetY := subInt32 g.GlobalTextOffsetY 10 }) ∧
      (byteAt s.incoming 0 = 2 → byteAt s.incoming 1 = 38 →
        g' = { g with GlobalTextOffsetX := subInt32 g.GlobalTextOffsetX 10 }) ∧
      (byteAt s.incoming 0 = 2 → byteAt s.incoming 1 = 40 →
        g' = { g with GlobalTextOffsetX := addInt32 g.GlobalTextOffsetX 10 }) ∧
      (¬ (byteAt s.incoming 0 = 2 ∧
          (byteAt s.incoming 1 = 25 ∨ byteAt s.incoming 1 = 39 ∨ byteAt s.incoming 1 = 38 ∨
            byteAt s.incoming 1 = 40)) → g' = g) ∧
      (∀ v : Int, -2147483648 ≤ v + 10 → v + 10 ≤ 2147483647 → addInt32 v 10 = v + 10) ∧
      (∀ v : Int, -2147483648 ≤ v - 10 → v - 10 ≤ 2147483647 → subInt32 v 10 = v - 10))
  by_cases h0 : byteAt s.incoming 0 = 0
  · obtain ⟨out, h⟩ : ∃ out, (GetAndProcessReply g s).1 = .ok (out, g) := by
      rw [GetAndProcessReply_eq, if_pos h0,
        PrintResponseError_eq _ (by omega) (byteAt_zeroPadded_lt _ hb _ _)]
      exact ⟨_, rfl⟩
    exact same out h (by omega)
  · by_cases h1 : byteAt s.incoming 0 = 1
    · obtain ⟨out, h⟩ : ∃ out, (GetAndProcessReply g s).1 = .ok (out, g) := by
        rw [GetAndProcessReply_eq, if_neg h0, if_pos h1]
        exact ⟨_, rfl⟩
      exact same out h (by omega)
    · by_cases h12 : byteAt s.incoming 0 = 12
      · obtain ⟨out, h⟩ : ∃ out, (GetAndProcessReply g s).1 = .ok (out, g) := by
          rw [GetAndProcessReply_eq, if_neg h0, if_neg h1,
            PrintAndProcessEvent_expose g _ (by omega) (hb0.trans h12)]
          exact ⟨_, rfl⟩
        exact same out h (by omega)
      · by_cases h2 : byteAt s.incoming 0 = 2
        · have hk := afterKey_offsets g (byteAt s.incoming 1) (byteAt_lt _ hb 1)
          obtain ⟨out, h⟩ : ∃ out, (GetAndProcessReply g s).1
              = .ok (out, afterKey g (toInt8 (byteAt s.incoming 1))) := by
            rw [GetAndProcessReply_eq, if_neg h0, if_neg h1,
              PrintAndProcessEvent_keyPress g _ (by omega) (hb0.trans h2), hb1]
            exact ⟨_, rfl⟩
          refine ⟨out, afterKey g (toInt8 (byteAt s.incoming 1)), h, afterKey_ids g _,
            fun _ h => hk.1 h, fun _ h => hk.2.1 h, fun _ h => hk.2.2.1 h,
            fun _ h => hk.2.2.2.1 h, fun hn => ?_, hadd, hsub⟩
          exact hk.2.2.2.2 (fun h => hn ⟨h2, Or.inl h⟩) (fun h => hn ⟨h2, Or.inr (Or.inl h)⟩)
            (fun h => hn ⟨h2, Or.inr (Or.inr (Or.inl h))⟩)
            (fun h => hn ⟨h2, Or.inr (Or.inr (Or.inr h))⟩)
        · obtain ⟨out, h⟩ : ∃ out, (GetAndProcessReply g s).1 = .ok (out, g) := by
            rw [GetAndProcessReply_eq, if_neg h0, if_neg h1,
              PrintAndProcessEvent_other g _ (by omega) (byteAt_zeroPadded_lt _ hb _ _)
                (by rw [hb0]; exact h12) (by rw [hb0]; exact h2)]
            exact ⟨_, rfl⟩
          exact same out h h2

/-- Witness for C20: from the initial offsets (10, 20) a KeyPress with key code 25
moves Y to 30 and one with key code 38 moves X to 0. -/
theorem GetAndProcessReply_text_offsets_witness :
    (byteAt ([2, 25] ++ List.replicate 30 0) 0 = 2 ∧
      byteAt ([2, 25] ++ List.replicate 30 0) 1 = 25) ∧
    ∃ out g', (GetAndProcessReply Globals.initial ⟨[2, 25] ++ List.replicate 30 0, []⟩).1
        = .ok (out, g') ∧
      g' = { Globals.initial with GlobalTextOffsetY := 30 } := by
  obtain ⟨out, g', h, _, h25, _⟩ :=
    GetAndProcessReply_text_offsets Globals.initial ⟨[2, 25] ++ List.replicate 30 0, []⟩
      (by decide)
  exact ⟨by decide, out, g', h, (h25 (by decide) (by decide)).trans (by decide)⟩

/-! ## Request encoders in closed form -/

theorem take_append_zeros (A : List Nat) (k z p : Nat) (hA : A.length = k) (hp : p ≤ z) :
    List.take (k + p) (A ++ List.replicate z 0) = A ++ List.replicate p 0 := by
  subst hA
  rw [List.take_append, List.take_replicate, Nat.min_eq_left hp]

theorem X_MapWindow_eq (s : Sock) (WindowId : Int) :
    X_MapWindow s WindowId = (0, s.write (mapWindowBytes (wrap32 WindowId))) := by
  unfold X_MapWindow
  simp only []
  rw [show (16 * 1024 : Nat) = 8 + 16376 from rfl, List.replicate_add]
  have hlen : (List.replicate 8 (0 : Nat)).length = 8 := List.length_replicate _ _
  simp only [store8_append, store16_append, store32_append, store8_length, store16_length,
    store32_length, hlen, Nat.reduceLT, Nat.reduceAdd]
  rw [show (2 * 4 : Nat) = 8 from rfl,
    List.take_left' (by simp only [store8_length, store16_length, store32_length, hlen])]
  have hz : List.replicate 8 (0 : Nat) = [0,0,0,0,0,0,0,0] := rfl
  rw [hz]
  simp only [store8, store16, store32, List.set_cons_succ, List.set_cons_zero, Nat.reduceAdd,
    mapWindowBytes, X11_REQUEST_MAP_WINDOW, Nat.reduceMod, Nat.reduceDiv]

theorem X_CreateGC_eq (g : Globals) (s : Sock) (GcId FontId : Int) :
    X_CreateGC g s GcId FontId
      = s.write (createGCBytes (wrap32 GcId) g.GlobalRootWindow (wrap32 FontId)) := by
  unfold X_CreateGC
  simp only []
  rw [show (16 * 1024 : Nat) = 28 + 16356 from rfl, List.replicate_add]
  have hlen : (List.replicate 28 (0 : Nat)).length = 28 := List.length_replicate _ _
  simp only [store8_append, store16_append, store32_append, store8_length, store16_length,
    store32_length, hlen, Nat.reduceLT, Nat.reduceAdd]
  rw [show ((4 : Int) + 3) * 4 = 28 from rfl, show (28 : Int).toNat = 28 from rfl,
    List.take_left' (by simp only [store8_length, store16_length, store32_length, hlen])]
  have hz : List.replicate 28 (0 : Nat)
      = [0,0,0,0,0,0,0,0,0,0, 0,0,0,0,0,0,0,0,0,0, 0,0,0,0,0,0,0,0] := rfl
  have hw7 : wrap16 (4 + 3) = 7 := rfl
  have hf : X11_FLAG_FG ||| X11_FLAG_BG ||| X11_FLAG_FONT = 16396 := rfl
  rw [hz, hw7, hf]
  simp only [store8, store16, store32, List.set_cons_succ, List.set_cons_zero, Nat.reduceAdd,
    createGCBytes, X11_REQUEST_CREATE_GC, Nat.reduceMod, Nat.reduceDiv]

theorem pad_lt (n : Nat) : pad n < 4 ∧ (n + pad n) % 4 = 0 := by
  unfold pad
  omega

theorem X_OpenFont_eq (s : Sock) (FontName : List Nat) (FontId : Int)
    (hfit : strlen FontName ≤ 16372) :
    X_OpenFont s FontName FontId
      = .ok (s.write
          (openFontHeader (3 + (strlen FontName + pad (strlen FontName)) / 4) (wrap32 FontId)
              (strlen FontName)
            ++ FontName.takeWhile (fun b => b != 0)
            ++ List.replicate (pad (strlen FontName)) 0)) := by
  have hp := pad_lt (strlen FontName)
  have hn : toInt32 (wrap32 ((strlen FontName : Nat) : Int)) = ((strlen FontName : Nat) : Int) := by
    unfold toInt32 wrap32
    split <;> omega
  have hrl : wrap16 (3 + (((strlen FontName : Nat) : Int) + ((pad (strlen FontName) : Nat) : Int)).tdiv 4)
      = 3 + (strlen FontName + pad (strlen FontName)) / 4 := by
    rw [Int.tdiv_eq_ediv (by omega) (by decide)]
    unfold wrap16
    omega
  have hw : wrap16 ((strlen FontName : Nat) : Int) = strlen FontName := by
    unfold wrap16
    omega
  unfold X_OpenFont
  simp only []
  rw [hn, PAD_natCast, hrl, hw]
  rw [show (16 * 1024 : Nat) = 12 + 16372 from rfl, List.replicate_add]
  have hlen : (List.replicate 12 (0 : Nat)).length = 12 := List.length_replicate _ _
  simp only [store8_append, store16_append, store32_append, store8_length, store16_length,
    store32_length, hlen, Nat.reduceLT, Nat.reduceAdd]
  rw [strncpy_padded _ _ _ _ _
    (by simp only [store8_length, store16_length, store32_length, hlen]) (by omega)
    (by exact_mod_cast hfit)]
  have hz : List.replicate 12 (0 : Nat) = [0,0,0,0,0,0,0,0, 0,0,0,0] := rfl
  rw [hz, Int.toNat_ofNat, Nat.sub_self, List.replicate_zero, List.append_nil]
  have htake : List.take (strlen FontName) (FontName.takeWhile (fun b => b != 0))
      = FontName.takeWhile (fun b => b != 0) := List.take_of_length_le (Nat.le_refl _)
  rw [htake]
  simp only [store8, store16, store32, List.set_cons_succ, List.set_cons_zero, Nat.reduceAdd,
    X11_REQUEST_OPEN_FONT, Nat.reduceMod]
  unfold firstBytes
  simp only [bind, Except.bind]
  have hcount : ((12 : Int) + ((strlen FontName : Nat) : Int) + ((pad (strlen FontName) : Nat) : Int)).toNat
      = (12 + strlen FontName) + pad (strlen FontName) := by omega
  have hl : ∀ H : List Nat, H.length = 12 →
      (H ++ FontName.takeWhile (fun b => b != 0)).length = 12 + strlen FontName := by
    intro H hH
    rw [List.length_append, hH]
    rfl
  have hH : ∀ a b c d e f g h : Nat,
      ([45, 0, a, b, c, d, e, f, g, h, 0, 0] : List Nat).length = 12 := fun _ _ _ _ _ _ _ _ => rfl
  rw [if_pos, hcount, take_append_zeros _ _ _ _ (hl _ (hH _ _ _ _ _ _ _ _)) (by omega)]
  · rfl
  · constructor
    · omega
    · rw [List.length_append, hl _ (hH _ _ _ _ _ _ _ _), List.length_replicate]
      push_cast
      omega

theorem WriteText_short (s : Sock) (WindowId GCid X Y : Int) (Text : List Nat) (n : Nat)
    (hn : n ≤ 255) :
    WriteText s WindowId GCid X Y Text (n : Int)
      = .ok (s.write
          (imageText8Header n (4 + (n + pad n) / 4) (wrap32 WindowId) (wrap32 GCid)
              (wrap16 X) (wrap16 Y)
            ++ ((Text.takeWhile (fun b => b != 0)).take n
                  ++ List.replicate (n - strlen Text) 0)
            ++ List.replicate (pad n) 0)) := by
  have hp := pad_lt n
  have hcl : wrap32 (4 + ((n : Int) + PAD (n : Int)).tdiv 4) = 4 + (n + pad n) / 4 := by
    rw [PAD_natCast, Int.tdiv_eq_ediv (by omega) (by decide)]
    unfold wrap32
    omega
  have hw8 : wrap8 (n : Int) = n := by
    unfold wrap8
    omega
  rw [WriteText_eq s WindowId GCid X Y Text n (by omega) (by omega), hcl, hw8, Int.toNat_ofNat]
  have hmid : ((Text.takeWhile (fun b => b != 0)).take n
      ++ List.replicate (n - strlen Text) 0).length = n := by
    rw [List.length_append, List.length_take, List.length_replicate]
    unfold strlen
    omega
  have hl : (imageText8Header n (4 + (n + pad n) / 4) (wrap32 WindowId) (wrap32 GCid)
      (wrap16 X) (wrap16 Y)
      ++ ((Text.takeWhile (fun b => b != 0)).take n
            ++ List.replicate (n - strlen Text) 0)).length = 16 + n := by
    rw [List.length_append, hmid]
    rfl
  have hcount : ((((4 + (n + pad n) / 4) * 4 % 4294967296 : Nat) : Int)).toNat
      = (16 + n) + pad n := by omega
  unfold firstBytes
  rw [if_pos, hcount, take_append_zeros _ _ _ _ hl (by omega)]
  · rfl
  · constructor
    · omega
    · rw [List.length_append, hl, List.length_replicate]
      omega

/-! ## Request encoders: claims C11 and C12 -/

/-- C11: every encoder writes exactly 4 times the request length it stored as a
u16 at offset 2: 40 bytes with length 10 for CreateWindow, 8 with length 2 for
MapWindow, 28 with length 7 for CreateGC; for a font name of length m that fits
the send buffer (m + 12 <= 16384) OpenFont writes 12 + m + pad(m) bytes with
length 3 + (m + pad(m))/4, and for a text length n in 0..255 WriteText writes
16 + n + pad(n) bytes with length 4 + (n + pad(n))/4. -/
theorem encoders_write_four_times_length (g : Globals) (s : Sock)
    (X Y Width Height WindowId GcId FontId GCid TX TY : Int) (FontName Text : List Nat)
    (n : Nat) (hfont : strlen FontName + 12 ≤ 16384) (hn : n ≤ 255) :
    ((sentBy s (X_CreatWindow g s X Y Width Height).2.2).length = 4 * 10 ∧
      load16 (sentBy s (X_CreatWindow g s X Y Width Height).2.2) 2 = .ok 10) ∧
    ((sentBy s (X_MapWindow s WindowId).2).length = 4 * 2 ∧
      load16 (sentBy s (X_MapWindow s WindowId).2) 2 = .ok 2) ∧
    ((sentBy s (X_CreateGC g s GcId FontId)).length = 4 * 7 ∧
      load16 (sentBy s (X_CreateGC g s GcId FontId)) 2 = .ok 7) ∧
    (∃ s', X_OpenFont s FontName FontId = .ok s' ∧
      (sentBy s s').length = 12 + strlen FontName + pad (strlen FontName) ∧
      load16 (sentBy s s') 2 = .ok (3 + (strlen FontName + pad (strlen FontName)) / 4) ∧
      (sentBy s s').length = 4 * (3 + (strlen FontName + pad (strlen FontName)) / 4)) ∧
    (∃ s', WriteText s WindowId GCid TX TY Text (n : Int) = .ok s' ∧
      (sentBy s s').length = 16 + n + pad n ∧
      load16 (sentBy s s') 2 = .ok (4 + (n + pad n) / 4) ∧
      (sentBy s s').length = 4 * (4 + (n + pad n) / 4)) := by
  refine ⟨?_, ?_, ?_, ?_, ?_⟩
  · rw [X_CreatWindow_eq]
    dsimp only
    rw [sentBy_write]
    exact ⟨rfl, rfl⟩
  · rw [X_MapWindow_eq]
    dsimp only
    rw [sentBy_write]
    exact ⟨rfl, rfl⟩
  · rw [X_CreateGC_eq, sentBy_write]
    exact ⟨rfl, rfl⟩
  · have hp := pad_lt (strlen FontName)
    refine ⟨_, X_OpenFont_eq s FontName FontId (by omega), ?_⟩
    rw [sentBy_write]
    have hl : (openFontHeader (3 + (strlen FontName + pad (strlen FontName)) / 4)
        (wrap32 FontId) (strlen FontName) ++ FontName.takeWhile (fun b => b != 0)
        ++ List.replicate (pad (strlen FontName)) 0).length
        = 12 + strlen FontName + pad (strlen FontName) := by
      rw [List.length_append, List.length_append, List.length_replicate]
      rfl
    refine ⟨hl, ?_, by rw [hl]; omega⟩
    have h16 : (3 + (strlen FontName + pad (strlen FontName)) / 4) % 256
        + 256 * ((3 + (strlen FontName + pad (strlen FontName)) / 4) / 256 % 256)
        = 3 + (strlen FontName + pad (strlen FontName)) / 4 := by omega
    exact congrArg Except.ok h16
  · have hp := pad_lt n
    refine ⟨_, WriteText_short s WindowId GCid TX TY Text n hn, ?_⟩
    rw [sentBy_write]
    have hl : (imageText8Header n (4 + (n + pad n) / 4) (wrap32 WindowId) (wrap32 GCid)
        (wrap16 TX) (wrap16 TY)
        ++ ((Text.takeWhile (fun b => b != 0)).take n ++ List.replicate (n - strlen Text) 0)
        ++ List.replicate (pad n) 0).length = 16 + n + pad n := by
      rw [List.length_append, List.length_append, List.length_append, List.length_take,
        List.length_replicate, List.length_replicate]
      unfold strlen
      have : (imageText8Header n (4 + (n + pad n) / 4) (wrap32 WindowId) (wrap32 GCid)
        (wrap16 TX) (wrap16 TY)).length = 16 := rfl
      omega
    refine ⟨hl, ?_, by rw [hl]; omega⟩
    have h16 : (4 + (n + pad n) / 4) % 256 + 256 * ((4 + (n + pad n) / 4) / 256 % 256)
        = 4 + (n + pad n) / 4 := by omega
    exact congrArg Except.ok h16

/-- Witness for C11: the font name `fixed` gives a 20-byte OpenFont request of
length 5, the 13-character text `Hello, World!` a 32-byte ImageText8 request of
length 8. -/
theorem encoders_write_four_times_length_witness :
    (strlen fixedFontName + 12 ≤ 16384 ∧ 13 ≤ 255) ∧
    (∃ s', X_OpenFont ⟨[], []⟩ fixedFontName 0x00400001 = .ok s' ∧
      (sentBy ⟨[], []⟩ s').length = 20 ∧ load16 (sentBy ⟨[], []⟩ s') 2 = .ok 5) ∧
    (∃ s', WriteText ⟨[], []⟩ 0x00400000 0x00400002 10 20 helloText 13 = .ok s' ∧
      (sentBy ⟨[], []⟩ s').length = 32 ∧ load16 (sentBy ⟨[], []⟩ s') 2 = .ok 8) := by
  have h := encoders_write_four_times_length typicalGlobals ⟨[], []⟩ 100 100 600 300
    0x00400000 0x00400002 0x00400001 0x00400002 10 20 fixedFontName helloText 13
    (by decide) (by decide)
  obtain ⟨_, _, _, ⟨s1, h1, h2, h3, _⟩, ⟨s2, h4, h5, h6, _⟩⟩ := h
  exact ⟨by decide, ⟨s1, h1, h2, h3⟩, ⟨s2, h4, h5, h6⟩⟩

/-- C12: for every text of length n with 0 <= n <= 255 containing no NUL byte, the
request WriteText writes has byte 0 = 76, byte 1 = n, the u16 at offset 2 equal to
4 + (n + pad(n))/4, the drawable as u32 at offset 4, the GC as u32 at offset 8,
x and y as i16 at offsets 12 and 14, the n text bytes unchanged at offsets
16..16+n-1, followed by pad(n) zero bytes and nothing else. -/
theorem WriteText_request_layout (s : Sock) (WindowId GCid X Y : Int) (Text : List Nat)
    (hn : Text.length ≤ 255) (hnul : 0 ∉ Text)
    (hX : -32768 ≤ X ∧ X < 32768) (hY : -32768 ≤ Y ∧ Y < 32768) :
    ∃ s', WriteText s WindowId GCid X Y Text (Text.length : Int) = .ok s' ∧
      s'.outgoing = s.outgoing ++ sentBy s s' ∧
      (sentBy s s').length = 16 + Text.length + pad Text.length ∧
      loadByte (sentBy s s') 0 = .ok 76 ∧
      loadByte (sentBy s s') 1 = .ok Text.length ∧
      load16 (sentBy s s') 2 = .ok (4 + (Text.length + pad Text.length) / 4) ∧
      load32 (sentBy s s') 4 = .ok (wrap32 WindowId) ∧
      load32 (sentBy s s') 8 = .ok (wrap32 GCid) ∧
      (load16 (sentBy s s') 12).map toInt16 = .ok X ∧
      (load16 (sentBy s s') 14).map toInt16 = .ok Y ∧
      ((sentBy s s').drop 16).take Text.length = Text ∧
      (sentBy s s').drop (16 + Text.length) = List.replicate (pad Text.length) 0 := by
  have hp := pad_lt Text.length
  have hw : ∀ z : Int, wrap32 z < 2^32 := by
    intro z
    unfold wrap32
    omega
  refine ⟨_, WriteText_short s WindowId GCid X Y Text Text.length hn, ?_⟩
  rw [sentBy_write, takeWhile_nonzero Text hnul, strlen_nonzero Text hnul,
    List.take_of_length_le (Nat.le_refl _), Nat.sub_self, List.replicate_zero, List.append_nil]
  have hH : (imageText8Header Text.length (4 + (Text.length + pad Text.length) / 4)
      (wrap32 WindowId) (wrap32 GCid) (wrap16 X) (wrap16 Y)).length = 16 := rfl
  refine ⟨?_, ?_, ?_, ?_, ?_, ?_, ?_, ?_, ?_, ?_, ?_⟩
  · rfl
  · rw [List.length_append, List.length_append, List.length_replicate, hH]
  · rfl
  · have h8 : Text.length % 256 = Text.length := by omega
    exact congrArg Except.ok h8
  · have h16 : (4 + (Text.length + pad Text.length) / 4) % 256
        + 256 * ((4 + (Text.length + pad Text.length) / 4) / 256 % 256)
        = 4 + (Text.length + pad Text.length) / 4 := by omega
    exact congrArg Except.ok h16
  · exact congrArg Except.ok (le32_decode _ (hw WindowId))
  · exact congrArg Except.ok (le32_decode _ (hw GCid))
  · rw [load16_of_lt _ 12 12 rfl
      (by rw [List.length_append, List.length_append, hH]; omega)]
    exact congrArg Except.ok (toInt16_wrap16 X hX)
  · rw [load16_of_lt _ 14 14 rfl
      (by rw [List.length_append, List.length_append, hH]; omega)]
    exact congrArg Except.ok (toInt16_wrap16 Y hY)
  · rw [List.append_assoc, List.drop_left' hH, List.take_left' rfl]
  · rw [List.drop_left' (by rw [List.length_append, hH])]

/-- Witness for C12: the 13-character text `Hello, World!` at (10, 20). -/
theorem WriteText_request_layout_witness :
    (helloText.length ≤ 255 ∧ 0 ∉ helloText) ∧
    ∃ s', WriteText ⟨[], []⟩ 0x00400000 0x00400002 10 20 helloText 13 = .ok s' ∧
      (sentBy ⟨[], []⟩ s').length = 32 ∧
      loadByte (sentBy ⟨[], []⟩ s') 0 = .ok 76 ∧
      loadByte (sentBy ⟨[], []⟩ s') 1 = .ok 13 ∧
      load16 (sentBy ⟨[], []⟩ s') 2 = .ok 8 ∧
      ((sentBy ⟨[], []⟩ s').drop 16).take 13 = helloText ∧
      (sentBy ⟨[], []⟩ s').drop 29 = [0, 0, 0] := by
  obtain ⟨s', h, _, hlen, h0, h1, h2, _, _, _, _, ht, hd⟩ :=
    WriteText_request_layout ⟨[], []⟩ 0x00400000 0x00400002 10 20 helloText (by decide)
      (by decide) (by decide) (by decide)
  exact ⟨by decide, s', h, hlen, h0, h1, h2, ht, hd⟩

end X11Poc
